import Mathlib

/-!
Verification development for the `ncsu-geoforall-lab/csdms-grass-2025`
repository: two Jupyter notebooks (`src/01_Getting_Started.ipynb` and the
stale draft `src/.ipynb_checkpoints/Getting_Started-checkpoint.ipynb`) that
drive the external GRASS GIS engine through shell commands (`!tool ...`),
the `grass.script` wrapper (`gs.run_command`, `gs.read_command`,
`gs.parse_command`, `gs.list_strings`) and the `grass.jupyter` plotting
library (`gj.Map`, `gj.InteractiveMap`, `gj.TimeSeriesMap`).

The development has three layers:

1. an invocation-sequence model (`TInv`): each external tool invocation of
   each notebook, in cell order, with its arguments classified as input
   dataset names, output dataset names, or other arguments (classification
   follows the GRASS manual semantics of each tool's parameters);
2. a pure model of the text parsing done by the authored helper
   `get_coordinates` (`splitLinesPy`, `parseDecimal`, `get_coordinates`);
3. a syntactic embedding of every authored code cell as a small Python
   AST (`Expr`/`Stmt`) together with a fuel-indexed operational semantics
   (`evalE`/`execS`) in which external calls are resolved by an oracle
   (a list of outcomes, one per call, in call order).
-/

/-! ### Layer 1: the invocation-sequence model -/

/-- Syntactic form of an argument value in an external tool invocation, as
written in the notebook cell. -/
inductive AVal where
  /-- a string literal, e.g. `input="drainage"` -/
  | lit (s : String)
  /-- a numeric literal, e.g. `res=10` -/
  | num (n : Int)
  /-- the value of a variable bound to the result of `gs.list_strings`
  (dataset names obtained unmodified from a listing call), e.g.
  `maps=maps` in the `t.register` cell -/
  | fromListing
  /-- coordinate values read from the attribute-table dataframe, e.g.
  `coordinates=[df.loc[8, 'x'], df.loc[8, 'y']]` -/
  | fromTable
  /-- coordinate pairs parsed by `get_coordinates`, e.g.
  `start_coordinates=coordinates` in `myanalysis` -/
  | fromCoords
  /-- a function parameter passed through verbatim; `actual` is the
  literal it is bound to at the unique call site, e.g.
  `elevation=elevation` inside `myanalysis` with `actual = "elevation"` -/
  | param (name actual : String)
  deriving DecidableEq, Repr

/-- Whether an argument of an external tool names a dataset the tool reads,
a dataset the tool creates, or something else (per the GRASS manuals). -/
inductive Role where
  | inData
  | outData
  | other
  deriving DecidableEq, Repr

/-- One `key=value` argument of an external tool invocation. -/
structure Arg where
  key : String
  val : AVal
  role : Role
  deriving DecidableEq, Repr

/-- One external tool invocation, in notebook cell order. -/
structure TInv where
  tool : String
  args : List Arg := []
  flags : String := ""
  deriving DecidableEq, Repr

/-- Literal dataset names an invocation consumes.  Names that come from a
listing call (`AVal.fromListing`) denote datasets that exist by
construction of the listing, so they carry no ordering obligation. -/
def TInv.inputNames (i : TInv) : List String :=
  i.args.filterMap fun a =>
    if a.role = Role.inData then
      match a.val with
      | AVal.lit s => some s
      | AVal.param _ actual => some actual
      | _ => none
    else none

/-- Literal dataset names an invocation produces or imports. -/
def TInv.outputNames (i : TInv) : List String :=
  i.args.filterMap fun a =>
    if a.role = Role.outData then
      match a.val with
      | AVal.lit s => some s
      | AVal.param _ actual => some actual
      | _ => none
    else none

/-- Check a sequence of invocations against the ordering invariant: every
input dataset name of every invocation was produced or imported by an
earlier invocation of the same sequence.  `avail` accumulates the names
produced so far. -/
def orderingOkFrom (avail : List String) : List TInv → Bool
  | [] => true
  | i :: rest =>
      i.inputNames.all (fun n => avail.contains n) &&
      orderingOkFrom (avail ++ i.outputNames) rest

/-- Ordering invariant for a whole notebook sequence. -/
def orderingOk (invs : List TInv) : Bool := orderingOkFrom [] invs

/-- All ordering violations of a sequence: pairs of the offending tool and
the input dataset name that no earlier invocation produced. -/
def orderingViolationsFrom (avail : List String) : List TInv → List (String × String)
  | [] => []
  | i :: rest =>
      (i.inputNames.filter (fun n => !avail.contains n)).map (fun n => (i.tool, n)) ++
      orderingViolationsFrom (avail ++ i.outputNames) rest

/-- Ordering violations of a whole notebook sequence. -/
def orderingViolations (invs : List TInv) : List (String × String) :=
  orderingViolationsFrom [] invs

/-- Mask-state transition: `r.mask raster=...` activates the session mask,
`r.mask -r` removes it, every other tool leaves it unchanged. -/
def maskStep (b : Bool) (i : TInv) : Bool :=
  if i.tool = "r.mask" then !(i.flags = "r") else b

/-- Mask states before each invocation, starting from state `b`. -/
def maskBeforeFrom (b : Bool) : List TInv → List Bool
  | [] => []
  | i :: rest => b :: maskBeforeFrom (maskStep b i) rest

/-- Mask state in effect when each invocation runs, starting unmasked. -/
def maskStates (invs : List TInv) : List Bool := maskBeforeFrom false invs

/-! ### The checkpoint notebook's invocation sequence

`src/.ipynb_checkpoints/Getting_Started-checkpoint.ipynb`, every external
invocation (shell tools, `gs.*` wrapper calls, and the display tools issued
by the `gj` plotting objects), in cell order.  The two `%%writefile`
scripts are run by the subsequent `%%python` cells, so their invocations
appear at that point of the sequence with the argument values bound at the
script's call site. -/

/-- Invocation sequence of the checkpoint notebook, in cell order. -/
def checkpointInvs : List TInv :=
  [ -- [0] cell: subprocess.check_output(["grass", "--config", "python_path"])
    { tool := "grass", args := [⟨"config", AVal.lit "python_path", Role.other⟩] },
    -- [1] cell: !grass -e -c EPSG:3358 $HOME/csdms-grass-2025
    { tool := "grass", args := [⟨"create", AVal.lit "EPSG:3358", Role.other⟩], flags := "ec" },
    -- [2] cell: gj.init("./csdms-grass-2025/PERMANENT")
    { tool := "gj.init", args := [⟨"path", AVal.lit "./csdms-grass-2025/PERMANENT", Role.other⟩] },
    -- [3] cell: !g.version
    { tool := "g.version" },
    -- [4] cell: !g.list type=all
    { tool := "g.list", args := [⟨"type", AVal.lit "all", Role.other⟩] },
    -- [5] cell: !g.region -p
    { tool := "g.region", flags := "p" },
    -- [6] cell: !v.import input="./lagoons.gpkg" output="lagoons"
    { tool := "v.import", args := [⟨"input", AVal.lit "./lagoons.gpkg", Role.other⟩,
                                   ⟨"output", AVal.lit "lagoons", Role.outData⟩] },
    -- [7] cell: !g.region -a vector="lagoons" res=10
    { tool := "g.region", args := [⟨"vector", AVal.lit "lagoons", Role.inData⟩,
                                   ⟨"res", AVal.num 10, Role.other⟩], flags := "a" },
    -- [8] cell: !g.region grow=200
    { tool := "g.region", args := [⟨"grow", AVal.num 200, Role.other⟩] },
    -- [9] cell: !g.extension r.in.usgs
    { tool := "g.extension", args := [⟨"extension", AVal.lit "r.in.usgs", Role.other⟩] },
    -- [10] cell: !r.in.usgs product="ned" ned_dataset="ned19sec" output_name="elevation" --verbose
    { tool := "r.in.usgs", args := [⟨"product", AVal.lit "ned", Role.other⟩,
                                    ⟨"ned_dataset", AVal.lit "ned19sec", Role.other⟩,
                                    ⟨"output_name", AVal.lit "elevation", Role.outData⟩] },
    -- [11] cell: !r.in.wms url="https://..." out="ortho" layer="USGSNAIPPlus"
    { tool := "r.in.wms", args := [⟨"url", AVal.lit "https://imagery.nationalmap.gov/arcgis/services/USGSNAIPPlus/ImageServer/WMSServer", Role.other⟩,
                                   ⟨"out", AVal.lit "ortho", Role.outData⟩,
                                   ⟨"layer", AVal.lit "USGSNAIPPlus", Role.other⟩] },
    -- [12] cell: !g.list type=all
    { tool := "g.list", args := [⟨"type", AVal.lit "all", Role.other⟩] },
    -- [13] cell: !g.search.modules keyword=zonal
    { tool := "g.search.modules", args := [⟨"keyword", AVal.lit "zonal", Role.other⟩] },
    -- [14] cell: !r.univar --help
    { tool := "r.univar", flags := "help" },
    -- [15] cell: gs.run_command("g.list", type="raster")
    { tool := "g.list", args := [⟨"type", AVal.lit "raster", Role.other⟩] },
    -- [16] cell: example.d_rast(map="ortho")
    { tool := "d.rast", args := [⟨"map", AVal.lit "ortho", Role.inData⟩] },
    -- [17] cell: example.d_barscale(bgcolor="none")
    { tool := "d.barscale", args := [⟨"bgcolor", AVal.lit "none", Role.other⟩] },
    -- [18] cell: map.add_raster("elevation", opacity=0.7)
    { tool := "gj.add_raster", args := [⟨"raster", AVal.lit "elevation", Role.inData⟩] },
    -- [19] cell: map.add_vector("lagoons")
    { tool := "gj.add_vector", args := [⟨"vector", AVal.lit "lagoons", Role.inData⟩] },
    -- [20] cell: gs.run_command("r.watershed", elevation="elevation",
    --            accumulation="accumulation", drainage="drainage")
    { tool := "r.watershed", args := [⟨"elevation", AVal.lit "elevation", Role.inData⟩,
                                      ⟨"accumulation", AVal.lit "accumulation", Role.outData⟩,
                                      ⟨"drainage", AVal.lit "drainage", Role.outData⟩] },
    -- [21] cell: map.add_raster("accumulation", opacity=0.5)
    { tool := "gj.add_raster", args := [⟨"raster", AVal.lit "accumulation", Role.inData⟩] },
    -- [22] cell: gs.run_command("r.path", input="drainage", vector_path="drain",
    --            start_points="lagoon_points")
    { tool := "r.path", args := [⟨"input", AVal.lit "drainage", Role.inData⟩,
                                 ⟨"vector_path", AVal.lit "drain", Role.outData⟩,
                                 ⟨"start_points", AVal.lit "lagoon_points", Role.inData⟩] },
    -- [23] cell: map.d_shade(color="ortho", shade="relief", brighten=50)
    { tool := "d.shade", args := [⟨"color", AVal.lit "ortho", Role.inData⟩,
                                  ⟨"shade", AVal.lit "relief", Role.inData⟩,
                                  ⟨"brighten", AVal.num 50, Role.other⟩] },
    -- [24] cell: map.d_vect(map="drain", width=1, color="blue")
    { tool := "d.vect", args := [⟨"map", AVal.lit "drain", Role.inData⟩,
                                 ⟨"width", AVal.num 1, Role.other⟩,
                                 ⟨"color", AVal.lit "blue", Role.other⟩] },
    -- [25] cell: gs.run_command("g.extension", extension="r.hand")
    { tool := "g.extension", args := [⟨"extension", AVal.lit "r.hand", Role.other⟩] },
    -- [26] cell: gs.run_command("r.hand", flags="t", elevation="elevation", hand="hand",
    --            inundation_strds="inundation" start_water_level=0, end_water_level=5,
    --            water_level_step=1) -- the source cell is missing the comma after
    --            "inundation"; embedded as the evidently intended call
    { tool := "r.hand", args := [⟨"elevation", AVal.lit "elevation", Role.inData⟩,
                                 ⟨"hand", AVal.lit "hand", Role.outData⟩,
                                 ⟨"inundation_strds", AVal.lit "inundation", Role.outData⟩,
                                 ⟨"start_water_level", AVal.num 0, Role.other⟩,
                                 ⟨"end_water_level", AVal.num 5, Role.other⟩,
                                 ⟨"water_level_step", AVal.num 1, Role.other⟩], flags := "t" },
    -- [27] cell: map.d_rast(map="relief")
    { tool := "d.rast", args := [⟨"map", AVal.lit "relief", Role.inData⟩] },
    -- [28] cell: map.d_vect(map="lagoons", fill_color="none")
    { tool := "d.vect", args := [⟨"map", AVal.lit "lagoons", Role.inData⟩,
                                 ⟨"fill_color", AVal.lit "none", Role.other⟩] },
    -- [29] cell: map.add_raster_series("inundation")
    { tool := "gj.add_raster_series", args := [⟨"series", AVal.lit "inundation", Role.inData⟩] },
    -- [30] cell: gs.run_command("v.extract", input="streams", output="stream_points",
    --            type="point", where="x IS NOT NULL")
    { tool := "v.extract", args := [⟨"input", AVal.lit "streams", Role.inData⟩,
                                    ⟨"output", AVal.lit "stream_points", Role.outData⟩,
                                    ⟨"type", AVal.lit "point", Role.other⟩,
                                    ⟨"where", AVal.lit "x IS NOT NULL", Role.other⟩] },
    -- [31] cell: map.d_rast(map="relief")
    { tool := "d.rast", args := [⟨"map", AVal.lit "relief", Role.inData⟩] },
    -- [32] cell: map.d_vect(map="streams", color="blue")
    { tool := "d.vect", args := [⟨"map", AVal.lit "streams", Role.inData⟩,
                                 ⟨"color", AVal.lit "blue", Role.other⟩] },
    -- [33] cell: map.d_vect(map="stream_points", display="cat", ...)
    { tool := "d.vect", args := [⟨"map", AVal.lit "stream_points", Role.inData⟩,
                                 ⟨"display", AVal.lit "cat", Role.other⟩] },
    -- [34] cell: gs.run_command("v.to.db", map="stream_points", option="coor",
    --            type="point", columns="x,y")
    { tool := "v.to.db", args := [⟨"map", AVal.lit "stream_points", Role.inData⟩,
                                  ⟨"option", AVal.lit "coor", Role.other⟩,
                                  ⟨"type", AVal.lit "point", Role.other⟩,
                                  ⟨"columns", AVal.lit "x,y", Role.other⟩] },
    -- [35] cell: gs.parse_command("v.db.select", map="stream_points",
    --            columns="cat,x,y", format="json")
    { tool := "v.db.select", args := [⟨"map", AVal.lit "stream_points", Role.inData⟩,
                                      ⟨"columns", AVal.lit "cat,x,y", Role.other⟩,
                                      ⟨"format", AVal.lit "json", Role.other⟩] },
    -- [36] cell: gs.run_command("r.water.outlet", input="direction", output="basin_15",
    --            coordinates=[df.loc[8, 'x'], df.loc[8, 'y']])
    { tool := "r.water.outlet", args := [⟨"input", AVal.lit "direction", Role.inData⟩,
                                         ⟨"output", AVal.lit "basin_15", Role.outData⟩,
                                         ⟨"coordinates", AVal.fromTable, Role.other⟩] },
    -- [37] cell: map.d_shade(color="basin_15", shade="relief", brighten=50)
    { tool := "d.shade", args := [⟨"color", AVal.lit "basin_15", Role.inData⟩,
                                  ⟨"shade", AVal.lit "relief", Role.inData⟩,
                                  ⟨"brighten", AVal.num 50, Role.other⟩] },
    -- [38] cell: gs.run_command("g.region", zoom="basin_13", res=6)
    { tool := "g.region", args := [⟨"zoom", AVal.lit "basin_13", Role.inData⟩,
                                   ⟨"res", AVal.num 6, Role.other⟩] },
    -- [39] cell: gs.run_command("r.mask", raster="basin_15")
    { tool := "r.mask", args := [⟨"raster", AVal.lit "basin_15", Role.inData⟩] },
    -- [40] cell: gs.run_command('r.slope.aspect', elevation="elevation", dx="dx", dy="dy")
    { tool := "r.slope.aspect", args := [⟨"elevation", AVal.lit "elevation", Role.inData⟩,
                                         ⟨"dx", AVal.lit "dx", Role.outData⟩,
                                         ⟨"dy", AVal.lit "dy", Role.outData⟩] },
    -- [41] cell: gs.run_command('r.sim.water', elevation="elevation", dx="dx", dy="dy",
    --            depth="depth", flags="t", niterations=30)
    { tool := "r.sim.water", args := [⟨"elevation", AVal.lit "elevation", Role.inData⟩,
                                      ⟨"dx", AVal.lit "dx", Role.inData⟩,
                                      ⟨"dy", AVal.lit "dy", Role.inData⟩,
                                      ⟨"depth", AVal.lit "depth", Role.outData⟩,
                                      ⟨"niterations", AVal.num 30, Role.other⟩], flags := "t" },
    -- [42] cell: gs.run_command("t.create", output="depth", temporaltype="relative", ...)
    { tool := "t.create", args := [⟨"output", AVal.lit "depth", Role.outData⟩,
                                   ⟨"temporaltype", AVal.lit "relative", Role.other⟩,
                                   ⟨"title", AVal.lit "Overland flow depth", Role.other⟩,
                                   ⟨"description", AVal.lit "Overland flow depth", Role.other⟩] },
    -- [43] cell: maps = gs.list_strings(type="raster", pattern="depth*")
    { tool := "g.list", args := [⟨"type", AVal.lit "raster", Role.other⟩,
                                 ⟨"pattern", AVal.lit "depth*", Role.other⟩] },
    -- [44] cell: gs.run_command("t.register", input="depth", maps=maps)
    { tool := "t.register", args := [⟨"input", AVal.lit "depth", Role.inData⟩,
                                     ⟨"maps", AVal.fromListing, Role.inData⟩] },
    -- [45] cell: flow_map.add_raster_series("depth")
    { tool := "gj.add_raster_series", args := [⟨"series", AVal.lit "depth", Role.inData⟩] },
    -- [46] cell: gs.run_command("r.mask", flags="r")
    { tool := "r.mask", flags := "r" },
    -- [47] cell: gs.run_command("g.region", n=131934, s=126825, w=702726, e=708443,
    --            res=3, flags="a")
    { tool := "g.region", args := [⟨"n", AVal.num 131934, Role.other⟩,
                                   ⟨"s", AVal.num 126825, Role.other⟩,
                                   ⟨"w", AVal.num 702726, Role.other⟩,
                                   ⟨"e", AVal.num 708443, Role.other⟩,
                                   ⟨"res", AVal.num 3, Role.other⟩], flags := "a" },
    -- [48] script yourlastname.py (first version), run by %%python:
    --      gs.run_command("r.slope.aspect", elevation=elevation, pcurvature="pcurvature")
    --      with myanalysis(elevation="elevation")
    { tool := "r.slope.aspect", args := [⟨"elevation", AVal.param "elevation" "elevation", Role.inData⟩,
                                         ⟨"pcurvature", AVal.lit "pcurvature", Role.outData⟩] },
    -- [49] cell: map.d_rast(map="pcurvature")
    { tool := "d.rast", args := [⟨"map", AVal.lit "pcurvature", Role.inData⟩] },
    -- [50] script yourlastname.py (second version), run by %%python:
    --      gs.read_command("v.out.ascii", input=points, separator="comma")
    --      with myanalysis(points="lagoon_points")
    { tool := "v.out.ascii", args := [⟨"input", AVal.param "points" "lagoon_points", Role.inData⟩,
                                      ⟨"separator", AVal.lit "comma", Role.other⟩] },
    -- [51] script yourlastname.py (second version): gs.run_command("r.drain",
    --      input=elevation, output="drain", drain="drain_vector",
    --      start_coordinates=coordinates) -- run when coordinates is nonempty
    { tool := "r.drain", args := [⟨"input", AVal.param "elevation" "elevation", Role.inData⟩,
                                  ⟨"output", AVal.lit "drain", Role.outData⟩,
                                  ⟨"drain", AVal.lit "drain_vector", Role.outData⟩,
                                  ⟨"start_coordinates", AVal.fromCoords, Role.other⟩] },
    -- [52] cell: map.d_rast(map="elevation")
    { tool := "d.rast", args := [⟨"map", AVal.lit "elevation", Role.inData⟩] },
    -- [53] cell: map.d_vect(map="drain_vector")
    { tool := "d.vect", args := [⟨"map", AVal.lit "drain_vector", Role.inData⟩] } ]

/-! ### The released notebook's invocation sequence

`src/01_Getting_Started.ipynb`, every external invocation in cell order. -/

/-- Invocation sequence of `01_Getting_Started.ipynb`, in cell order. -/
def gettingStartedInvs : List TInv :=
  [ -- [0] cell: subprocess.check_output(["grass", "--config", "python_path"])
    { tool := "grass", args := [⟨"config", AVal.lit "python_path", Role.other⟩] },
    -- [1] cell: gs.create_project("nc-swine", epsg=3358, overwrite=True)
    { tool := "gs.create_project", args := [⟨"name", AVal.lit "nc-swine", Role.other⟩,
                                            ⟨"epsg", AVal.num 3358, Role.other⟩] },
    -- [2] cell: gj.init("./nc-swine/PERMANENT")
    { tool := "gj.init", args := [⟨"path", AVal.lit "./nc-swine/PERMANENT", Role.other⟩] },
    -- [3] cell: !g.version
    { tool := "g.version" },
    -- [4] cell: !g.list type=all
    { tool := "g.list", args := [⟨"type", AVal.lit "all", Role.other⟩] },
    -- [5] cell: !g.region -p
    { tool := "g.region", flags := "p" },
    -- [6] cell: !v.import input="./lagoons.gpkg" output="lagoons"
    { tool := "v.import", args := [⟨"input", AVal.lit "./lagoons.gpkg", Role.other⟩,
                                   ⟨"output", AVal.lit "lagoons", Role.outData⟩] },
    -- [7] cell: !g.region -a vector="lagoons" res=10
    { tool := "g.region", args := [⟨"vector", AVal.lit "lagoons", Role.inData⟩,
                                   ⟨"res", AVal.num 10, Role.other⟩], flags := "a" },
    -- [8] cell: !g.region grow=200 -p
    { tool := "g.region", args := [⟨"grow", AVal.num 200, Role.other⟩], flags := "p" },
    -- [9] cell: !g.list type=all
    { tool := "g.list", args := [⟨"type", AVal.lit "all", Role.other⟩] },
    -- [10] cell: !g.extension r.in.usgs
    { tool := "g.extension", args := [⟨"extension", AVal.lit "r.in.usgs", Role.other⟩] },
    -- [11] cell: !r.in.usgs product="ned" ned_dataset="ned19sec" output_name="elevation"
    { tool := "r.in.usgs", args := [⟨"product", AVal.lit "ned", Role.other⟩,
                                    ⟨"ned_dataset", AVal.lit "ned19sec", Role.other⟩,
                                    ⟨"output_name", AVal.lit "elevation", Role.outData⟩] },
    -- [12] cell: !g.list type=all
    { tool := "g.list", args := [⟨"type", AVal.lit "all", Role.other⟩] },
    -- [13] cell: !r.in.wms url="https://..." out="ortho" layer="USGSNAIPPlus"
    { tool := "r.in.wms", args := [⟨"url", AVal.lit "https://imagery.nationalmap.gov/arcgis/services/USGSNAIPPlus/ImageServer/WMSServer", Role.other⟩,
                                   ⟨"out", AVal.lit "ortho", Role.outData⟩,
                                   ⟨"layer", AVal.lit "USGSNAIPPlus", Role.other⟩] },
    -- [14] cell: !g.search.modules keyword=zonal
    { tool := "g.search.modules", args := [⟨"keyword", AVal.lit "zonal", Role.other⟩] },
    -- [15] cell: !r.univar --help
    { tool := "r.univar", flags := "help" },
    -- [16] cell: gs.run_command("g.list", type="raster")
    { tool := "g.list", args := [⟨"type", AVal.lit "raster", Role.other⟩] },
    -- [17] cell: example.d_rast(map="elevation")
    { tool := "d.rast", args := [⟨"map", AVal.lit "elevation", Role.inData⟩] },
    -- [18] cell: example.d_barscale(bgcolor="none")
    { tool := "d.barscale", args := [⟨"bgcolor", AVal.lit "none", Role.other⟩] },
    -- [19] cell: example.d_legend(raster="elevation")
    { tool := "d.legend", args := [⟨"raster", AVal.lit "elevation", Role.inData⟩] },
    -- [20] cell: map.add_raster("ortho", opacity=0.6)
    { tool := "gj.add_raster", args := [⟨"raster", AVal.lit "ortho", Role.inData⟩] },
    -- [21] cell: map.add_vector("lagoons")
    { tool := "gj.add_vector", args := [⟨"vector", AVal.lit "lagoons", Role.inData⟩] },
    -- [22] cell: gs.run_command("r.relief", input="elevation", output="relief")
    { tool := "r.relief", args := [⟨"input", AVal.lit "elevation", Role.inData⟩,
                                   ⟨"output", AVal.lit "relief", Role.outData⟩] },
    -- [23] cell: m.d_shade(color="elevation", shade="relief", brighten=50)
    { tool := "d.shade", args := [⟨"color", AVal.lit "elevation", Role.inData⟩,
                                  ⟨"shade", AVal.lit "relief", Role.inData⟩,
                                  ⟨"brighten", AVal.num 50, Role.other⟩] },
    -- [24] cell: m.d_vect(map="lagoons", color="none", fill_color="blue")
    { tool := "d.vect", args := [⟨"map", AVal.lit "lagoons", Role.inData⟩,
                                 ⟨"color", AVal.lit "none", Role.other⟩,
                                 ⟨"fill_color", AVal.lit "blue", Role.other⟩] },
    -- [25] cell: m.d_barscale(bgcolor="none")
    { tool := "d.barscale", args := [⟨"bgcolor", AVal.lit "none", Role.other⟩] } ]



/-! ### Layer 2: the text parsing performed by `get_coordinates`

The second `%%writefile yourlastname.py` script of the checkpoint notebook
defines

```
def get_coordinates(points):
    data = gs.read_command("v.out.ascii", input=points, separator="comma").splitlines()
    return [[float(coor) for coor in point.split(",")[:2]] for point in data]
```

The functions below model its pure part: the map from the text returned by
`v.out.ascii` to the coordinate list.  `splitLinesPy` models Python's
`str.splitlines` on the common line terminators (`\n`, `\r\n`, `\r`);
`parseDecimal` models `float()` on plain decimal literals (optional sign,
digits, optional fractional part), returning the exact value as a scaled
decimal `Dec` (mantissa over a power of ten; `Dec.toRat` gives the rational
it denotes); unparsable fields yield `none`, modelling the `ValueError`
that `float()` raises. -/

/-- Helper for `splitLinesPy`: walk the characters, accumulating the
current line (reversed) in `acc`; a terminator at the very end of the
string does not open a final empty line. -/
def splitLinesAux : List Char → List Char → List String
  | [], acc => [String.mk acc.reverse]
  | '\r' :: '\n' :: rest, acc =>
      String.mk acc.reverse :: (if rest.isEmpty then [] else splitLinesAux rest [])
  | '\n' :: rest, acc =>
      String.mk acc.reverse :: (if rest.isEmpty then [] else splitLinesAux rest [])
  | '\r' :: rest, acc =>
      String.mk acc.reverse :: (if rest.isEmpty then [] else splitLinesAux rest [])
  | c :: rest, acc => splitLinesAux rest (c :: acc)

/-- Python's `str.splitlines` (restricted to `\n`, `\r\n` and `\r`):
the empty string has no lines, and a trailing terminator does not produce
a trailing empty line. -/
def splitLinesPy (s : String) : List String :=
  if s.data.isEmpty then [] else splitLinesAux s.data []

/-- Python's `str.strip()` with no argument: remove leading and trailing
whitespace. -/
def pyStrip (s : String) : String :=
  String.mk (((s.data.dropWhile Char.isWhitespace).reverse.dropWhile
    Char.isWhitespace).reverse)

/-- Numeric value of a digit string, most significant digit first. -/
def natOfDigits (l : List Char) : ℕ :=
  l.foldl (fun a c => 10 * a + (c.toNat - 48)) 0

/-- A decimal number, exactly as parsed: the value `mantissa / 10 ^
exponent`.  The representation is not normalised; theorems only ever
compare parses of the same text, so normalisation never matters. -/
structure Dec where
  mantissa : Int
  exponent : Nat
  deriving DecidableEq, Repr

/-- The rational value a parsed decimal denotes. -/
def Dec.toRat (d : Dec) : ℚ := (d.mantissa : ℚ) / (10 : ℚ) ^ d.exponent

/-- Python's `str.split(sep)` for a one-character separator, on character
lists: `"".split(",") == [""]`, and separators delimit possibly empty
fields. -/
def splitOnChar (sep : Char) : List Char → List (List Char)
  | [] => [[]]
  | c :: rest =>
      if c = sep then [] :: splitOnChar sep rest
      else
        match splitOnChar sep rest with
        | [] => [[c]]
        | f :: fs => (c :: f) :: fs

/-- Python `float()` on plain decimal literals, as the exact scaled
decimal: an optional sign, then digits with at most one decimal point and
at least one digit overall.  Anything else is `none` (a `ValueError` in
Python). -/
def parseDecimalChars (cs : List Char) : Option Dec :=
  let sb : Int × List Char :=
    match cs with
    | '-' :: rest => (-1, rest)
    | '+' :: rest => (1, rest)
    | _ => (1, cs)
  match splitOnChar '.' sb.2 with
  | [ip] =>
      if !ip.isEmpty && ip.all Char.isDigit then
        some ⟨sb.1 * (natOfDigits ip : Int), 0⟩
      else none
  | [ip, fp] =>
      if !(ip ++ fp).isEmpty && (ip ++ fp).all Char.isDigit then
        some ⟨sb.1 * (natOfDigits (ip ++ fp) : Int), fp.length⟩
      else none
  | _ => none

/-- Python `float()` on a string field. -/
def parseDecimal (s : String) : Option Dec := parseDecimalChars s.data

/-- One line of `v.out.ascii` output: `float()` applied to the first two
comma-separated fields (`point.split(",")[:2]`). -/
def parseLine (line : String) : Option (List Dec) :=
  ((splitOnChar ',' line.data).take 2).mapM parseDecimalChars

/-- The full comprehension of `get_coordinates`, over an already-split
line list. -/
def parseLines (lines : List String) : Option (List (List Dec)) :=
  lines.mapM parseLine

/-- The pure map computed by `get_coordinates` from the text returned by
`v.out.ascii`: split into lines, then parse the first two comma-separated
fields of each line.  `none` models the `ValueError` raised when a field
does not parse. -/
def get_coordinates (text : String) : Option (List (List Dec)) :=
  parseLines (splitLinesPy text)


/-! ### Layer 3: AST and operational semantics of the authored cells

Every authored code cell of both notebooks is embedded as a list of
statements of a small Python fragment.  External calls (shell tools,
`subprocess.check_output`, the `gs.*` wrapper functions and the `gj.*`
plotting calls) are uninterpreted: their outcomes come from an oracle,
a list holding the outcome of each call in call order.  The fragment also
has `try`/`except` (`Stmt.tryS`) and thread creation (`Stmt.spawnThread`)
so that their absence from the embedded programs is a statement about the
source, not about the language. -/

/-- Runtime values of the embedded Python fragment. -/
inductive PVal where
  | str (s : String)
  | num (n : Int)
  /-- a float value, e.g. a coordinate from the attribute table -/
  | dec (d : Dec)
  | bool (b : Bool)
  /-- a list of strings (`splitlines()` result, `gs.list_strings` result) -/
  | strs (ss : List String)
  /-- a list of `[x, y]` coordinate lists (`get_coordinates` result) -/
  | coords (cs : List (List Dec))
  /-- a two-element list `[x, y]` of floats -/
  | pairD (x y : Dec)
  /-- tabular records: rows of column-name/value pairs (a dataframe) -/
  | rows (t : List (List (String × Dec)))
  /-- a parsed JSON document whose `"records"` key holds tabular records -/
  | json (t : List (List (String × Dec)))
  | pyNone
  deriving DecidableEq, Repr

/-- Python truthiness of the embedded values (`if coordinates:` tests
nonemptiness of a list). -/
def truthy : PVal → Bool
  | .str s => !s.isEmpty
  | .num n => n != 0
  | .dec d => d.mantissa != 0
  | .bool b => b
  | .strs ss => !ss.isEmpty
  | .coords cs => !cs.isEmpty
  | .pairD _ _ => true
  | .rows t => !t.isEmpty
  | .json t => !t.isEmpty
  | .pyNone => false

/-- Outcome of one external call: a returned value, or a raised exception
carrying an error payload. -/
inductive ExtOut where
  | ret (v : PVal)
  | raise (code : Int)
  deriving DecidableEq, Repr

/-- The environment's behaviour: outcome of the n-th external call of the
run, in call order.  Calls beyond the end of the list return `None`. -/
abbrev Oracle : Type := List ExtOut

/-- Outcome the oracle assigns to call number `n`. -/
def consult (ora : Oracle) (n : Nat) : ExtOut :=
  (List.get? ora n).getD (ExtOut.ret PVal.pyNone)

/-- Record of one performed external call: which wrapper was used, which
tool was invoked, the resolved arguments, and the outcome. -/
structure CallRec where
  fn : String
  tool : String
  args : List (String × PVal)
  out : ExtOut
  deriving DecidableEq, Repr

/-- Exceptions of the embedded fragment.  `fromCall n code` is the
exception raised by the n-th external call, carrying its payload
unchanged. -/
inductive Exc where
  | fromCall (n : Nat) (code : Int)
  | valueError
  | typeError
  | keyError
  | importError
  | nameError
  deriving DecidableEq, Repr

/-- Expressions of the embedded Python fragment. -/
inductive Expr where
  | strLit (s : String)
  | numLit (n : Int)
  | var (x : String)
  /-- an external invocation: wrapper function `fn`, external tool `tool`,
  keyword arguments -/
  | extCall (fn : String) (tool : String) (args : List (String × Expr))
  /-- a call to a function defined in the same script -/
  | userCall (f : String) (args : List Expr)
  /-- the two-element list display `[a, b]` of float values, e.g.
  `[df.loc[8, 'x'], df.loc[8, 'y']]` -/
  | coordPair (a b : Expr)
  /-- `e.splitlines()` -/
  | splitlinesE (e : Expr)
  /-- `e.strip()` -/
  | stripE (e : Expr)
  /-- the comprehension of `get_coordinates`:
  `[[float(coor) for coor in point.split(",")[:2]] for point in e]` -/
  | parseCoordsE (e : Expr)
  /-- `e[key]` on a parsed JSON document -/
  | subscriptE (e : Expr) (key : String)
  /-- `pd.DataFrame(e)`: the dataframe holding the given records -/
  | dataFrameE (e : Expr)
  /-- `e.loc[idx, col]` on a dataframe with the default range index -/
  | locIdx (e : Expr) (idx : Nat) (col : String)
  /-- the guard expression `__name__ == "__main__"`, true when the script
  is executed by `%%python` -/
  | isMainE

/-- Statements of the embedded Python fragment. -/
inductive Stmt where
  | exprS (e : Expr)
  | assign (x : String) (e : Expr)
  | ifS (cond : Expr) (thn els : List Stmt)
  /-- `try:` body `except:` handler — present in the fragment, absent from
  every embedded cell -/
  | tryS (body handler : List Stmt)
  | defF (f : String) (ps : List String) (body : List Stmt)
  | ret (e : Expr)
  /-- `sys.path.append(e)` -/
  | sysPathAppend (e : Expr)
  /-- an `import` statement; `needsGrassPath` marks the imports of
  `grass.script`/`grass.jupyter`, which Python can only resolve after the
  engine's package path has been appended to `sys.path` -/
  | importS (needsGrassPath : Bool)
  /-- `threading.Thread(target=...).start()` — present in the fragment,
  absent from every embedded cell -/
  | spawnThread (body : List Stmt)

/-- Interpreter state: local bindings, the module search path (only its
engine-relevant tail, initially empty), and the external calls performed
so far, in order. -/
structure PState where
  locals : List (String × PVal) := []
  sysPath : List String := []
  calls : List CallRec := []
  deriving Repr

/-- Result of evaluating or executing: a value with the new state, an
uncaught exception with the state at the point of the raise, or fuel
exhaustion. -/
inductive Res (α : Type) where
  | ok (s : PState) (v : α)
  | exc (s : PState) (e : Exc)
  | fuel

/-- Function definitions in scope: name, parameters, body. -/
abbrev FEnv : Type := List (String × List String × List Stmt)

mutual

/-- Evaluate an expression.  Fuel decreases on every recursive call. -/
def evalE (fenv : FEnv) (ora : Oracle) : Nat → Expr → PState → Res PVal
  | 0, _, _ => .fuel
  | fuel+1, e, s =>
    match e with
    | .strLit v => .ok s (.str v)
    | .numLit n => .ok s (.num n)
    | .isMainE => .ok s (.bool true)
    | .var x =>
        match s.locals.lookup x with
        | some v => .ok s v
        | none => .exc s .nameError
    | .extCall fn tool args =>
        match evalArgs fenv ora fuel args s with
        | .ok s1 avs =>
            match consult ora s1.calls.length with
            | .ret v =>
                .ok { s1 with calls := s1.calls ++ [⟨fn, tool, avs, .ret v⟩] } v
            | .raise code =>
                .exc { s1 with calls := s1.calls ++ [⟨fn, tool, avs, .raise code⟩] }
                  (.fromCall s1.calls.length code)
        | .exc s1 ex => .exc s1 ex
        | .fuel => .fuel
    | .userCall f args =>
        match evalList fenv ora fuel args s with
        | .ok s1 avs =>
            match fenv.lookup f with
            | some (ps, body) =>
                match execS fenv ora fuel body { s1 with locals := ps.zip avs } with
                | .ok s2 r => .ok { s2 with locals := s1.locals } (r.getD .pyNone)
                | .exc s2 ex => .exc { s2 with locals := s1.locals } ex
                | .fuel => .fuel
            | none => .exc s1 .nameError
        | .exc s1 ex => .exc s1 ex
        | .fuel => .fuel
    | .coordPair a b =>
        match evalE fenv ora fuel a s with
        | .ok s1 va =>
            match evalE fenv ora fuel b s1 with
            | .ok s2 vb =>
                match va, vb with
                | .dec da, .dec db => .ok s2 (.pairD da db)
                | _, _ => .exc s2 .typeError
            | .exc s2 ex => .exc s2 ex
            | .fuel => .fuel
        | .exc s1 ex => .exc s1 ex
        | .fuel => .fuel
    | .splitlinesE e1 =>
        match evalE fenv ora fuel e1 s with
        | .ok s1 v =>
            match v with
            | .str t => .ok s1 (.strs (splitLinesPy t))
            | _ => .exc s1 .typeError
        | .exc s1 ex => .exc s1 ex
        | .fuel => .fuel
    | .stripE e1 =>
        match evalE fenv ora fuel e1 s with
        | .ok s1 v =>
            match v with
            | .str t => .ok s1 (.str (pyStrip t))
            | _ => .exc s1 .typeError
        | .exc s1 ex => .exc s1 ex
        | .fuel => .fuel
    | .parseCoordsE e1 =>
        match evalE fenv ora fuel e1 s with
        | .ok s1 v =>
            match v with
            | .strs ls =>
                match parseLines ls with
                | some cs => .ok s1 (.coords cs)
                | none => .exc s1 .valueError
            | _ => .exc s1 .typeError
        | .exc s1 ex => .exc s1 ex
        | .fuel => .fuel
    | .subscriptE e1 key =>
        match evalE fenv ora fuel e1 s with
        | .ok s1 v =>
            match v with
            | .json t => if key = "records" then .ok s1 (.rows t) else .exc s1 .keyError
            | _ => .exc s1 .typeError
        | .exc s1 ex => .exc s1 ex
        | .fuel => .fuel
    | .dataFrameE e1 =>
        match evalE fenv ora fuel e1 s with
        | .ok s1 v =>
            match v with
            | .rows t => .ok s1 (.rows t)
            | _ => .exc s1 .typeError
        | .exc s1 ex => .exc s1 ex
        | .fuel => .fuel
    | .locIdx e1 idx col =>
        match evalE fenv ora fuel e1 s with
        | .ok s1 v =>
            match v with
            | .rows t =>
                match (List.get? t idx).bind (fun row => row.lookup col) with
                | some d => .ok s1 (.dec d)
                | none => .exc s1 .keyError
            | _ => .exc s1 .typeError
        | .exc s1 ex => .exc s1 ex
        | .fuel => .fuel

/-- Evaluate keyword arguments left to right. -/
def evalArgs (fenv : FEnv) (ora : Oracle) :
    Nat → List (String × Expr) → PState → Res (List (String × PVal))
  | 0, _, _ => .fuel
  | _+1, [], s => .ok s []
  | fuel+1, (k, e) :: rest, s =>
    match evalE fenv ora fuel e s with
    | .ok s1 v =>
        match evalArgs fenv ora fuel rest s1 with
        | .ok s2 vs => .ok s2 ((k, v) :: vs)
        | .exc s2 ex => .exc s2 ex
        | .fuel => .fuel
    | .exc s1 ex => .exc s1 ex
    | .fuel => .fuel

/-- Evaluate positional arguments left to right. -/
def evalList (fenv : FEnv) (ora : Oracle) :
    Nat → List Expr → PState → Res (List PVal)
  | 0, _, _ => .fuel
  | _+1, [], s => .ok s []
  | fuel+1, e :: rest, s =>
    match evalE fenv ora fuel e s with
    | .ok s1 v =>
        match evalList fenv ora fuel rest s1 with
        | .ok s2 vs => .ok s2 (v :: vs)
        | .exc s2 ex => .exc s2 ex
        | .fuel => .fuel
    | .exc s1 ex => .exc s1 ex
    | .fuel => .fuel

/-- Execute a statement list.  `some v` signals an early `return v`. -/
def execS (fenv : FEnv) (ora : Oracle) : Nat → List Stmt → PState → Res (Option PVal)
  | 0, _, _ => .fuel
  | _+1, [], s => .ok s none
  | fuel+1, st :: rest, s =>
    match st with
    | .exprS e =>
        match evalE fenv ora fuel e s with
        | .ok s1 _ => execS fenv ora fuel rest s1
        | .exc s1 ex => .exc s1 ex
        | .fuel => .fuel
    | .assign x e =>
        match evalE fenv ora fuel e s with
        | .ok s1 v => execS fenv ora fuel rest { s1 with locals := (x, v) :: s1.locals }
        | .exc s1 ex => .exc s1 ex
        | .fuel => .fuel
    | .ifS c thn els =>
        match evalE fenv ora fuel c s with
        | .ok s1 v =>
            match execS fenv ora fuel (if truthy v then thn else els) s1 with
            | .ok s2 none => execS fenv ora fuel rest s2
            | .ok s2 (some r) => .ok s2 (some r)
            | .exc s2 ex => .exc s2 ex
            | .fuel => .fuel
        | .exc s1 ex => .exc s1 ex
        | .fuel => .fuel
    | .tryS body handler =>
        match execS fenv ora fuel body s with
        | .ok s1 none => execS fenv ora fuel rest s1
        | .ok s1 (some r) => .ok s1 (some r)
        | .exc s1 _ =>
            match execS fenv ora fuel handler s1 with
            | .ok s2 none => execS fenv ora fuel rest s2
            | .ok s2 (some r) => .ok s2 (some r)
            | .exc s2 ex => .exc s2 ex
            | .fuel => .fuel
        | .fuel => .fuel
    | .defF _ _ _ => execS fenv ora fuel rest s
    | .ret e =>
        match evalE fenv ora fuel e s with
        | .ok s1 v => .ok s1 (some v)
        | .exc s1 ex => .exc s1 ex
        | .fuel => .fuel
    | .sysPathAppend e =>
        match evalE fenv ora fuel e s with
        | .ok s1 v =>
            match v with
            | .str p => execS fenv ora fuel rest { s1 with sysPath := s1.sysPath ++ [p] }
            | _ => .exc s1 .typeError
        | .exc s1 ex => .exc s1 ex
        | .fuel => .fuel
    | .importS needsGrassPath =>
        if needsGrassPath && s.sysPath.isEmpty then .exc s .importError
        else execS fenv ora fuel rest s
    | .spawnThread body =>
        match execS fenv ora fuel body s with
        | .ok s1 _ => execS fenv ora fuel rest s1
        | .exc s1 ex => .exc s1 ex
        | .fuel => .fuel

end

/-- Top-level function definitions of a script. -/
def collectDefs : List Stmt → FEnv
  | [] => []
  | .defF f ps body :: rest => (f, ps, body) :: collectDefs rest
  | _ :: rest => collectDefs rest

/-- Run a cell or script from the empty state, its own definitions in
scope. -/
def runProg (ora : Oracle) (fuel : Nat) (prog : List Stmt) : Res (Option PVal) :=
  execS (collectDefs prog) ora fuel prog {}

/-! ### Syntactic predicates on the embedded fragment -/

mutual

/-- Does a statement contain a `try`/`except` anywhere? -/
def stHasTry : Stmt → Bool
  | .tryS _ _ => true
  | .ifS _ thn els => stsHasTry thn || stsHasTry els
  | .defF _ _ body => stsHasTry body
  | .spawnThread body => stsHasTry body
  | _ => false

/-- Does a statement list contain a `try`/`except` anywhere? -/
def stsHasTry : List Stmt → Bool
  | [] => false
  | st :: rest => stHasTry st || stsHasTry rest

end

mutual

/-- Does a statement create a thread anywhere? -/
def stSpawns : Stmt → Bool
  | .spawnThread _ => true
  | .ifS _ thn els => stsSpawns thn || stsSpawns els
  | .tryS body handler => stsSpawns body || stsSpawns handler
  | .defF _ _ body => stsSpawns body
  | _ => false

/-- Does a statement list create a thread anywhere? -/
def stsSpawns : List Stmt → Bool
  | [] => false
  | st :: rest => stSpawns st || stsSpawns rest

end

mutual

/-- Does a statement append to `sys.path` anywhere? -/
def stPathApp : Stmt → Bool
  | .sysPathAppend _ => true
  | .ifS _ thn els => stsPathApp thn || stsPathApp els
  | .tryS body handler => stsPathApp body || stsPathApp handler
  | .defF _ _ body => stsPathApp body
  | .spawnThread body => stsPathApp body
  | _ => false

/-- Does a statement list append to `sys.path` anywhere? -/
def stsPathApp : List Stmt → Bool
  | [] => false
  | st :: rest => stPathApp st || stsPathApp rest

end

mutual

/-- All `if` conditions occurring in a statement. -/
def stIfConds : Stmt → List Expr
  | .ifS c thn els => c :: (stsIfConds thn ++ stsIfConds els)
  | .tryS body handler => stsIfConds body ++ stsIfConds handler
  | .defF _ _ body => stsIfConds body
  | .spawnThread body => stsIfConds body
  | _ => []

/-- All `if` conditions occurring in a statement list. -/
def stsIfConds : List Stmt → List Expr
  | [] => []
  | st :: rest => stIfConds st ++ stsIfConds rest

end

/-! ### The authored code cells, embedded

Comment-only and empty cells contain no statements and are omitted.  The
`%%writefile` cells define the two script programs; the `%%python` cells
run them, which is modelled by `runProg` on the script programs. -/

/-- The bootstrap cell shared by both notebooks:
`sys.path.append(subprocess.check_output(["grass", "--config",
"python_path"], text=True).strip())`. -/
def bootstrapCell : List Stmt :=
  [.sysPathAppend (.stripE (.extCall "subprocess.check_output" "grass"
      [("config", .strLit "python_path")]))]

/-- The cell importing `grass.script` and `grass.jupyter`; resolvable only
once the engine's package path is on `sys.path`. -/
def grassImportCell : List Stmt := [.importS true]

/-- The first `%%writefile yourlastname.py` script of the checkpoint
notebook: `myanalysis(elevation)` computes profile curvature through one
`r.slope.aspect` invocation, and the main guard runs it on `"elevation"`. -/
def curvatureScript : List Stmt :=
  [ .importS true,
    .defF "myanalysis" ["elevation"]
      [ .exprS (.extCall "gs.run_command" "r.slope.aspect"
          [("elevation", .var "elevation"), ("pcurvature", .strLit "pcurvature")]) ],
    .ifS .isMainE
      [ .assign "elevation" (.strLit "elevation"),
        .exprS (.userCall "myanalysis" [.var "elevation"]) ]
      [] ]

/-- The second `%%writefile yourlastname.py` script of the checkpoint
notebook: `get_coordinates(points)` reads `v.out.ascii` output and parses
it; `myanalysis(elevation, points)` runs `r.drain` only when the parsed
coordinate list is nonempty; the main guard runs it on `"elevation"` and
`"lagoon_points"`. -/
def drainScript : List Stmt :=
  [ .importS true,
    .defF "get_coordinates" ["points"]
      [ .assign "data" (.splitlinesE (.extCall "gs.read_command" "v.out.ascii"
          [("input", .var "points"), ("separator", .strLit "comma")])),
        .ret (.parseCoordsE (.var "data")) ],
    .defF "myanalysis" ["elevation", "points"]
      [ .assign "coordinates" (.userCall "get_coordinates" [.var "points"]),
        .ifS (.var "coordinates")
          [ .exprS (.extCall "gs.run_command" "r.drain"
              [("input", .var "elevation"), ("output", .strLit "drain"),
               ("drain", .strLit "drain_vector"),
               ("start_coordinates", .var "coordinates")]) ]
          [] ],
    .ifS .isMainE
      [ .assign "elevation" (.strLit "elevation"),
        .assign "points" (.strLit "lagoon_points"),
        .exprS (.userCall "myanalysis" [.var "elevation", .var "points"]) ]
      [] ]

/-- The cell running the two overland-flow preparations:
`gs.run_command('r.slope.aspect', ...)` then `gs.run_command('r.sim.water',
...)`, in source order. -/
def simWaterCell : List Stmt :=
  [ .exprS (.extCall "gs.run_command" "r.slope.aspect"
      [("elevation", .strLit "elevation"), ("dx", .strLit "dx"), ("dy", .strLit "dy")]),
    .exprS (.extCall "gs.run_command" "r.sim.water"
      [("elevation", .strLit "elevation"), ("dx", .strLit "dx"), ("dy", .strLit "dy"),
       ("depth", .strLit "depth"), ("flags", .strLit "t"), ("niterations", .numLit 30)]) ]

/-- Every authored code cell of the checkpoint notebook, in cell order. -/
def checkpointCells : List (List Stmt) :=
  [ -- cell: import subprocess / import sys / from pathlib import Path
    [.importS false],
    bootstrapCell,
    grassImportCell,
    -- cell: !grass -e -c EPSG:3358 $HOME/csdms-grass-2025
    [.exprS (.extCall "shell" "grass"
      [("create", .strLit "EPSG:3358"), ("dir", .strLit "$HOME/csdms-grass-2025")])],
    -- cell: gj.init("./csdms-grass-2025/PERMANENT")
    [.exprS (.extCall "gj.init" "gj.init" [("path", .strLit "./csdms-grass-2025/PERMANENT")])],
    [.exprS (.extCall "shell" "g.version" [])],
    [.exprS (.extCall "shell" "g.list" [("type", .strLit "all")])],
    [.exprS (.extCall "shell" "g.region" [("flags", .strLit "p")])],
    -- cell: !v.import input="./lagoons.gpkg" output="lagoons"
    [.exprS (.extCall "shell" "v.import"
      [("input", .strLit "./lagoons.gpkg"), ("output", .strLit "lagoons")])],
    [.exprS (.extCall "shell" "g.region"
      [("flags", .strLit "a"), ("vector", .strLit "lagoons"), ("res", .numLit 10)])],
    [.exprS (.extCall "shell" "g.region" [("grow", .numLit 200)])],
    [.exprS (.extCall "shell" "g.extension" [("extension", .strLit "r.in.usgs")])],
    -- cell: !r.in.usgs product="ned" ned_dataset="ned19sec" output_name="elevation" --verbose
    [.exprS (.extCall "shell" "r.in.usgs"
      [("product", .strLit "ned"), ("ned_dataset", .strLit "ned19sec"),
       ("output_name", .strLit "elevation")])],
    -- cell: !r.in.wms url="https://..." out="ortho" layer="USGSNAIPPlus"
    [.exprS (.extCall "shell" "r.in.wms"
      [("url", .strLit "https://imagery.nationalmap.gov/arcgis/services/USGSNAIPPlus/ImageServer/WMSServer"),
       ("out", .strLit "ortho"), ("layer", .strLit "USGSNAIPPlus")])],
    [.exprS (.extCall "shell" "g.list" [("type", .strLit "all")])],
    [.exprS (.extCall "shell" "g.search.modules" [("keyword", .strLit "zonal")])],
    [.exprS (.extCall "shell" "r.univar" [("flags", .strLit "help")])],
    -- cell: gs.run_command("g.list", type="raster")
    [.exprS (.extCall "gs.run_command" "g.list" [("type", .strLit "raster")])],
    -- cell: example = gj.Map(); example.d_rast(map="ortho"); example.d_barscale(...); example.show()
    [ .assign "example" (.extCall "gj.Map" "gj.Map" []),
      .exprS (.extCall "gj.Map.d_rast" "d.rast" [("map", .strLit "ortho")]),
      .exprS (.extCall "gj.Map.d_barscale" "d.barscale" [("bgcolor", .strLit "none")]),
      .exprS (.extCall "gj.Map.show" "gj.show" []) ],
    -- cell: map = gj.InteractiveMap(); map.add_raster("elevation", ...); map.add_vector("lagoons"); map.show()
    [ .assign "map" (.extCall "gj.InteractiveMap" "gj.InteractiveMap" []),
      .exprS (.extCall "gj.InteractiveMap.add_raster" "gj.add_raster"
        [("raster", .strLit "elevation")]),
      .exprS (.extCall "gj.InteractiveMap.add_vector" "gj.add_vector"
        [("vector", .strLit "lagoons")]),
      .exprS (.extCall "gj.InteractiveMap.show" "gj.show" []) ],
    -- cell: gs.run_command("r.watershed", ...)
    [.exprS (.extCall "gs.run_command" "r.watershed"
      [("elevation", .strLit "elevation"), ("accumulation", .strLit "accumulation"),
       ("drainage", .strLit "drainage")])],
    [ .assign "map" (.extCall "gj.InteractiveMap" "gj.InteractiveMap" []),
      .exprS (.extCall "gj.InteractiveMap.add_raster" "gj.add_raster"
        [("raster", .strLit "accumulation")]),
      .exprS (.extCall "gj.InteractiveMap.show" "gj.show" []) ],
    -- cell: gs.run_command("r.path", input="drainage", vector_path="drain", start_points="lagoon_points")
    [.exprS (.extCall "gs.run_command" "r.path"
      [("input", .strLit "drainage"), ("vector_path", .strLit "drain"),
       ("start_points", .strLit "lagoon_points")])],
    [ .assign "map" (.extCall "gj.Map" "gj.Map" []),
      .exprS (.extCall "gj.Map.d_shade" "d.shade"
        [("color", .strLit "ortho"), ("shade", .strLit "relief"), ("brighten", .numLit 50)]),
      .exprS (.extCall "gj.Map.d_vect" "d.vect"
        [("map", .strLit "drain"), ("width", .numLit 1), ("color", .strLit "blue")]),
      .exprS (.extCall "gj.Map.show" "gj.show" []) ],
    -- cell: gs.run_command("g.extension", extension="r.hand")
    [.exprS (.extCall "gs.run_command" "g.extension" [("extension", .strLit "r.hand")])],
    -- cell: gs.run_command("r.hand", flags="t", ...); the source cell is missing the
    -- comma after inundation_strds="inundation"; embedded as the evidently intended call
    [.exprS (.extCall "gs.run_command" "r.hand"
      [("flags", .strLit "t"), ("elevation", .strLit "elevation"), ("hand", .strLit "hand"),
       ("inundation_strds", .strLit "inundation"), ("start_water_level", .numLit 0),
       ("end_water_level", .numLit 5), ("water_level_step", .numLit 1)])],
    -- cell: map = gj.TimeSeriesMap(); map.d_rast(map="relief"); map.d_vect(map="lagoons", ...);
    --       map.add_raster_series("inundation"); map.show()
    [ .assign "map" (.extCall "gj.TimeSeriesMap" "gj.TimeSeriesMap" []),
      .exprS (.extCall "gj.TimeSeriesMap.d_rast" "d.rast" [("map", .strLit "relief")]),
      .exprS (.extCall "gj.TimeSeriesMap.d_vect" "d.vect"
        [("map", .strLit "lagoons"), ("fill_color", .strLit "none")]),
      .exprS (.extCall "gj.TimeSeriesMap.add_raster_series" "gj.add_raster_series"
        [("series", .strLit "inundation")]),
      .exprS (.extCall "gj.TimeSeriesMap.show" "gj.show" []) ],
    -- cell: gs.run_command("v.extract", input="streams", output="stream_points", ...)
    [.exprS (.extCall "gs.run_command" "v.extract"
      [("input", .strLit "streams"), ("output", .strLit "stream_points"),
       ("type", .strLit "point"), ("where", .strLit "x IS NOT NULL")])],
    [ .assign "map" (.extCall "gj.Map" "gj.Map" []),
      .exprS (.extCall "gj.Map.d_rast" "d.rast" [("map", .strLit "relief")]),
      .exprS (.extCall "gj.Map.d_vect" "d.vect"
        [("map", .strLit "streams"), ("color", .strLit "blue")]),
      .exprS (.extCall "gj.Map.d_vect" "d.vect"
        [("map", .strLit "stream_points"), ("display", .strLit "cat")]),
      .exprS (.extCall "gj.Map.show" "gj.show" []) ],
    -- cell: import pandas as pd; gs.run_command("v.to.db", ...);
    --       df = pd.DataFrame(gs.parse_command("v.db.select", ...)["records"]); df
    [ .importS false,
      .exprS (.extCall "gs.run_command" "v.to.db"
        [("map", .strLit "stream_points"), ("option", .strLit "coor"),
         ("type", .strLit "point"), ("columns", .strLit "x,y")]),
      .assign "df" (.dataFrameE (.subscriptE (.extCall "gs.parse_command" "v.db.select"
        [("map", .strLit "stream_points"), ("columns", .strLit "cat,x,y"),
         ("format", .strLit "json")]) "records")),
      .exprS (.var "df") ],
    -- cell: [df.loc[8, 'x'], df.loc[8, 'y']]
    [.exprS (.coordPair (.locIdx (.var "df") 8 "x") (.locIdx (.var "df") 8 "y"))],
    -- cell: gs.run_command("r.water.outlet", input="direction", output="basin_15",
    --       coordinates=[df.loc[8, 'x'], df.loc[8, 'y']]); map = gj.Map(); ...
    [ .exprS (.extCall "gs.run_command" "r.water.outlet"
        [("input", .strLit "direction"), ("output", .strLit "basin_15"),
         ("coordinates", .coordPair (.locIdx (.var "df") 8 "x") (.locIdx (.var "df") 8 "y"))]),
      .assign "map" (.extCall "gj.Map" "gj.Map" []),
      .exprS (.extCall "gj.Map.d_shade" "d.shade"
        [("color", .strLit "basin_15"), ("shade", .strLit "relief"), ("brighten", .numLit 50)]),
      .exprS (.extCall "gj.Map.show" "gj.show" []) ],
    -- cell: gs.run_command("g.region", zoom="basin_13", res=6)
    [.exprS (.extCall "gs.run_command" "g.region"
      [("zoom", .strLit "basin_13"), ("res", .numLit 6)])],
    -- cell: gs.run_command("r.mask", raster="basin_15")
    [.exprS (.extCall "gs.run_command" "r.mask" [("raster", .strLit "basin_15")])],
    simWaterCell,
    -- cell: gs.run_command("t.create", ...); maps = gs.list_strings(...); gs.run_command("t.register", ...)
    [ .exprS (.extCall "gs.run_command" "t.create"
        [("output", .strLit "depth"), ("temporaltype", .strLit "relative"),
         ("title", .strLit "Overland flow depth"),
         ("description", .strLit "Overland flow depth")]),
      .assign "maps" (.extCall "gs.list_strings" "g.list"
        [("type", .strLit "raster"), ("pattern", .strLit "depth*")]),
      .exprS (.extCall "gs.run_command" "t.register"
        [("input", .strLit "depth"), ("maps", .var "maps")]) ],
    -- cell: flow_map = gj.TimeSeriesMap(); flow_map.add_raster_series("depth"); flow_map.show()
    [ .assign "flow_map" (.extCall "gj.TimeSeriesMap" "gj.TimeSeriesMap" []),
      .exprS (.extCall "gj.TimeSeriesMap.add_raster_series" "gj.add_raster_series"
        [("series", .strLit "depth")]),
      .exprS (.extCall "gj.TimeSeriesMap.show" "gj.show" []) ],
    -- cell: gs.run_command("r.mask", flags="r"); gs.run_command("g.region", n=..., ..., flags="a")
    [ .exprS (.extCall "gs.run_command" "r.mask" [("flags", .strLit "r")]),
      .exprS (.extCall "gs.run_command" "g.region"
        [("n", .numLit 131934), ("s", .numLit 126825), ("w", .numLit 702726),
         ("e", .numLit 708443), ("res", .numLit 3), ("flags", .strLit "a")]) ],
    curvatureScript,
    [ .assign "map" (.extCall "gj.Map" "gj.Map" []),
      .exprS (.extCall "gj.Map.d_rast" "d.rast" [("map", .strLit "pcurvature")]),
      .exprS (.extCall "gj.Map.show" "gj.show" []) ],
    drainScript,
    [ .assign "map" (.extCall "gj.Map" "gj.Map" []),
      .exprS (.extCall "gj.Map.d_rast" "d.rast" [("map", .strLit "elevation")]),
      .exprS (.extCall "gj.Map.d_vect" "d.vect" [("map", .strLit "drain_vector")]),
      .exprS (.extCall "gj.Map.show" "gj.show" []) ] ]

/-- Every authored code cell of `01_Getting_Started.ipynb`, in cell
order. -/
def gettingStartedCells : List (List Stmt) :=
  [ -- cell: import subprocess / import sys / from pathlib import Path
    [.importS false],
    bootstrapCell,
    grassImportCell,
    -- cell: gs.create_project("nc-swine", epsg=3358, overwrite=True)
    [.exprS (.extCall "gs.create_project" "gs.create_project"
      [("name", .strLit "nc-swine"), ("epsg", .numLit 3358)])],
    -- cell: gj.init("./nc-swine/PERMANENT")
    [.exprS (.extCall "gj.init" "gj.init" [("path", .strLit "./nc-swine/PERMANENT")])],
    [.exprS (.extCall "shell" "g.version" [])],
    [.exprS (.extCall "shell" "g.list" [("type", .strLit "all")])],
    [.exprS (.extCall "shell" "g.region" [("flags", .strLit "p")])],
    -- cell: !v.import input="./lagoons.gpkg" output="lagoons"
    [.exprS (.extCall "shell" "v.import"
      [("input", .strLit "./lagoons.gpkg"), ("output", .strLit "lagoons")])],
    [.exprS (.extCall "shell" "g.region"
      [("flags", .strLit "a"), ("vector", .strLit "lagoons"), ("res", .numLit 10)])],
    [.exprS (.extCall "shell" "g.region" [("grow", .numLit 200), ("flags", .strLit "p")])],
    [.exprS (.extCall "shell" "g.list" [("type", .strLit "all")])],
    [.exprS (.extCall "shell" "g.extension" [("extension", .strLit "r.in.usgs")])],
    -- cell: !r.in.usgs product="ned" ned_dataset="ned19sec" output_name="elevation"
    [.exprS (.extCall "shell" "r.in.usgs"
      [("product", .strLit "ned"), ("ned_dataset", .strLit "ned19sec"),
       ("output_name", .strLit "elevation")])],
    [.exprS (.extCall "shell" "g.list" [("type", .strLit "all")])],
    -- cell: !r.in.wms url="https://..." out="ortho" layer="USGSNAIPPlus"
    [.exprS (.extCall "shell" "r.in.wms"
      [("url", .strLit "https://imagery.nationalmap.gov/arcgis/services/USGSNAIPPlus/ImageServer/WMSServer"),
       ("out", .strLit "ortho"), ("layer", .strLit "USGSNAIPPlus")])],
    [.exprS (.extCall "shell" "g.search.modules" [("keyword", .strLit "zonal")])],
    [.exprS (.extCall "shell" "r.univar" [("flags", .strLit "help")])],
    -- cell: gs.run_command("g.list", type="raster")
    [.exprS (.extCall "gs.run_command" "g.list" [("type", .strLit "raster")])],
    -- cell: example = gj.Map(); example.d_rast(map="elevation"); example.d_barscale(...);
    --       example.d_legend(raster="elevation"); example.show()
    [ .assign "example" (.extCall "gj.Map" "gj.Map" []),
      .exprS (.extCall "gj.Map.d_rast" "d.rast" [("map", .strLit "elevation")]),
      .exprS (.extCall "gj.Map.d_barscale" "d.barscale" [("bgcolor", .strLit "none")]),
      .exprS (.extCall "gj.Map.d_legend" "d.legend" [("raster", .strLit "elevation")]),
      .exprS (.extCall "gj.Map.show" "gj.show" []) ],
    -- cell: map = gj.InteractiveMap(); map.add_raster("ortho", opacity=0.6);
    --       map.add_vector("lagoons"); map.add_layer_control(); map.show()
    [ .assign "map" (.extCall "gj.InteractiveMap" "gj.InteractiveMap" []),
      .exprS (.extCall "gj.InteractiveMap.add_raster" "gj.add_raster"
        [("raster", .strLit "ortho")]),
      .exprS (.extCall "gj.InteractiveMap.add_vector" "gj.add_vector"
        [("vector", .strLit "lagoons")]),
      .exprS (.extCall "gj.InteractiveMap.add_layer_control" "gj.add_layer_control" []),
      .exprS (.extCall "gj.InteractiveMap.show" "gj.show" []) ],
    -- cell: gs.run_command("r.relief", input="elevation", output="relief")
    [.exprS (.extCall "gs.run_command" "r.relief"
      [("input", .strLit "elevation"), ("output", .strLit "relief")])],
    -- cell: m = gj.Map(); m.d_shade(color="elevation", shade="relief", brighten=50);
    --       m.d_vect(map="lagoons", ...); m.d_barscale(...); m.show()
    [ .assign "m" (.extCall "gj.Map" "gj.Map" []),
      .exprS (.extCall "gj.Map.d_shade" "d.shade"
        [("color", .strLit "elevation"), ("shade", .strLit "relief"), ("brighten", .numLit 50)]),
      .exprS (.extCall "gj.Map.d_vect" "d.vect"
        [("map", .strLit "lagoons"), ("color", .strLit "none"), ("fill_color", .strLit "blue")]),
      .exprS (.extCall "gj.Map.d_barscale" "d.barscale" [("bgcolor", .strLit "none")]),
      .exprS (.extCall "gj.Map.show" "gj.show" []) ] ]

/-- All authored code cells of both notebooks. -/
def allCells : List (List Stmt) := checkpointCells ++ gettingStartedCells


/-- Initial state for the `%%python yourlastname.py` script runs: the
fresh interpreter the session spawns already resolves the `grass`
packages (the engine path is on its module search path). -/
def scriptInit : PState := { sysPath := ["grass-python-path"] }

/-- Run one of the `%%writefile` scripts as `%%python` does. -/
def runScript (ora : Oracle) (fuel : Nat) (prog : List Stmt) : Res (Option PVal) :=
  execS (collectDefs prog) ora fuel prog scriptInit

/-- Tools of the external calls a run performed, in call order. -/
def callTools : Res (Option PVal) → List String
  | .ok s _ => s.calls.map CallRec.tool
  | .exc s _ => s.calls.map CallRec.tool
  | .fuel => []

/-- Did the run terminate normally (no uncaught exception, enough fuel)? -/
def resOk : Res (Option PVal) → Bool
  | .ok _ _ => true
  | _ => false


/-! ### State-evolution facts about the semantics

`StEvo s s' nt np` collects how a state may evolve: calls are only ever
appended; under `np` ("the code appends nothing to `sys.path`") the path
is unchanged; under `nt` ("the code contains no `try`") every call on
record succeeded — an exception would have aborted the run.  `ResEvo`
attaches these to a result, adding for uncaught exceptions that a
`fromCall` exception is exactly what the oracle raised for that call. -/

/-- Evolution facts between two interpreter states, under the syntactic
side conditions `nt` (try-free) and `np` (append-free). -/
def StEvo (s s' : PState) (nt np : Prop) : Prop :=
  (∃ t, s'.calls = s.calls ++ t) ∧
  (np → s'.sysPath = s.sysPath) ∧
  (nt → ∀ rec ∈ s'.calls, rec ∈ s.calls ∨ ∃ v, rec.out = ExtOut.ret v)

/-- Evolution facts attached to a result. -/
def ResEvo (ora : Oracle) (s : PState) (nt np : Prop) : Res α → Prop
  | .ok s' _ => StEvo s s' nt np
  | .exc s' e =>
      StEvo s s' False np ∧
      ∀ n code, e = Exc.fromCall n code → consult ora n = ExtOut.raise code
  | .fuel => True

theorem StEvo.rfl {s : PState} {nt np : Prop} : StEvo s s nt np :=
  ⟨⟨[], (List.append_nil _).symm⟩, fun _ => Eq.refl _, fun _ rec hm => Or.inl hm⟩

theorem StEvo.trans {s1 s2 s3 : PState} {nt np : Prop}
    (h : StEvo s1 s2 nt np) (h' : StEvo s2 s3 nt np) : StEvo s1 s3 nt np := by
  obtain ⟨⟨t1, ht1⟩, hp1, hc1⟩ := h
  obtain ⟨⟨t2, ht2⟩, hp2, hc2⟩ := h'
  refine ⟨⟨t1 ++ t2, by rw [ht2, ht1, List.append_assoc]⟩,
    fun hnp => (hp2 hnp).trans (hp1 hnp), fun hnt rec hm => ?_⟩
  rcases hc2 hnt rec hm with hm2 | hv
  · exact hc1 hnt rec hm2
  · exact Or.inr hv

theorem StEvo.mono {s1 s2 : PState} {nt np nt' np' : Prop}
    (h : StEvo s1 s2 nt np) (hnt : nt' → nt) (hnp : np' → np) : StEvo s1 s2 nt' np' :=
  ⟨h.1, fun x => h.2.1 (hnp x), fun x => h.2.2 (hnt x)⟩

/-- Appending one successful call preserves the evolution facts. -/
theorem StEvo.callOk {s : PState} {fn tool : String} {avs : List (String × PVal)}
    {v : PVal} {nt np : Prop} :
    StEvo s { s with calls := s.calls ++ [⟨fn, tool, avs, ExtOut.ret v⟩] } nt np := by
  refine ⟨⟨[⟨fn, tool, avs, ExtOut.ret v⟩], Eq.refl _⟩, fun _ => Eq.refl _,
    fun _ rec hm => ?_⟩
  rcases List.mem_append.1 hm with hm1 | hm1
  · exact Or.inl hm1
  · rcases List.mem_singleton.1 hm1 with h
    exact Or.inr ⟨v, by rw [h]⟩

/-- Appending one failed call: the try-free condition is not claimed. -/
theorem StEvo.callRaise {s : PState} {fn tool : String} {avs : List (String × PVal)}
    {code : Int} {np : Prop} :
    StEvo s { s with calls := s.calls ++ [⟨fn, tool, avs, ExtOut.raise code⟩] } False np :=
  ⟨⟨[⟨fn, tool, avs, ExtOut.raise code⟩], Eq.refl _⟩, fun _ => Eq.refl _,
    fun hf => absurd hf (fun h => h.elim)⟩

/-- Locals-only updates preserve every evolution fact. -/
theorem StEvo.localsOnly {s : PState} {L : List (String × PVal)} {nt np : Prop} :
    StEvo s { s with locals := L } nt np :=
  ⟨⟨[], (List.append_nil _).symm⟩, fun _ => Eq.refl _, fun _ rec hm => Or.inl hm⟩

/-- Appending to `sys.path` is an evolution only when `np` is absent. -/
theorem StEvo.pathStep {s : PState} {p : String} {nt : Prop} :
    StEvo s { s with sysPath := s.sysPath ++ [p] } nt False :=
  ⟨⟨[], (List.append_nil _).symm⟩, fun h => h.elim, fun _ rec hm => Or.inl hm⟩

/-- A successful `List.lookup` finds an actual member. -/
theorem lookupMem {α β : Type} [BEq α] [LawfulBEq α] {a : α} {b : β} :
    ∀ {l : List (α × β)}, List.lookup a l = some b → (a, b) ∈ l := by
  intro l
  induction l with
  | nil => intro h; simp [List.lookup] at h
  | cons p rest ihr =>
      intro h
      obtain ⟨k, v⟩ := p
      rw [List.lookup] at h
      rcases hak : (a == k) with _ | _ <;> rw [hak] at h
      · exact List.mem_cons_of_mem _ (ihr h)
      · injection h with hv
        have hk : a = k := eq_of_beq hak
        subst hk; subst hv
        exact List.mem_cons_self _ _

/-- The central evolution lemma: every run of the interpreter only appends
to the call log; a run of `sys.path`-append-free code leaves the module
search path unchanged; a successful run of `try`-free code performed only
successful calls; and an uncaught `fromCall` exception carries exactly the
outcome the oracle assigned to that call.  The function environment must
be `try`-free and append-free (it is collected from the same program). -/
theorem semEvo (fenv : FEnv) (ora : Oracle)
    (hf : ∀ d ∈ fenv, stsHasTry d.2.2 = false)
    (hp : ∀ d ∈ fenv, stsPathApp d.2.2 = false) :
    ∀ fuel : Nat,
      (∀ e s, ResEvo ora s True True (evalE fenv ora fuel e s)) ∧
      (∀ args s, ResEvo ora s True True (evalArgs fenv ora fuel args s)) ∧
      (∀ es s, ResEvo ora s True True (evalList fenv ora fuel es s)) ∧
      (∀ prog s, ResEvo ora s (stsHasTry prog = false) (stsPathApp prog = false)
          (execS fenv ora fuel prog s)) := by
  intro fuel
  induction fuel with
  | zero =>
      exact ⟨fun _ _ => trivial, fun _ _ => trivial, fun _ _ => trivial, fun _ _ => trivial⟩
  | succ fuel ih =>
    obtain ⟨ihE, ihA, ihL, ihS⟩ := ih
    refine ⟨?_, ?_, ?_, ?_⟩
    · -- expressions
      intro e s
      cases e with
      | strLit v => exact StEvo.rfl
      | numLit n => exact StEvo.rfl
      | isMainE => exact StEvo.rfl
      | var x =>
          rcases h1 : s.locals.lookup x with _ | v <;> simp only [evalE, h1]
          · exact ⟨StEvo.rfl, fun n code hc => Exc.noConfusion hc⟩
          · exact StEvo.rfl
      | extCall fn tool args =>
          have hA := ihA args s
          rcases h1 : evalArgs fenv ora fuel args s with ⟨s1, avs⟩ | ⟨s1, ex⟩ | _ <;>
            rw [h1] at hA <;> simp only [evalE, h1]
          · rcases h2 : consult ora s1.calls.length with v | code <;> simp only [h2]
            · exact (hA : StEvo _ _ _ _).trans StEvo.callOk
            · refine ⟨((hA : StEvo _ _ _ _).mono (fun _ => trivial) (fun x => x)).trans
                StEvo.callRaise, fun n code' hc => ?_⟩
              injection hc with hn hcode
              rw [← hn, ← hcode]
              exact h2
          · exact hA
          · trivial
      | userCall f args =>
          have hL := ihL args s
          rcases h1 : evalList fenv ora fuel args s with ⟨s1, avs⟩ | ⟨s1, ex⟩ | _ <;>
            rw [h1] at hL <;> simp only [evalE, h1]
          · rcases h2 : fenv.lookup f with _ | pb <;> simp only [h2]
            · exact ⟨(hL : StEvo _ _ _ _).mono (fun h => h.elim) (fun x => x),
                fun n code hc => Exc.noConfusion hc⟩
            · obtain ⟨ps, body⟩ := pb
              have hmem := lookupMem h2
              have hbt : stsHasTry body = false := hf _ hmem
              have hbp : stsPathApp body = false := hp _ hmem
              have hS := ihS body { s1 with locals := ps.zip avs }
              rcases h3 : execS fenv ora fuel body { s1 with locals := ps.zip avs }
                  with ⟨s2, r⟩ | ⟨s2, ex⟩ | _ <;> rw [h3] at hS <;> simp only [h3]
              · exact ((hL : StEvo _ _ _ _).trans StEvo.localsOnly).trans
                  (((hS : StEvo _ _ _ _).mono (fun _ => hbt) (fun _ => hbp)).trans
                    StEvo.localsOnly)
              · obtain ⟨hS1, hprov⟩ := hS
                exact ⟨(((hL : StEvo _ _ _ _).mono (fun h => h.elim) (fun x => x)).trans
                  StEvo.localsOnly).trans ((hS1.mono (fun x => x) (fun _ => hbp)).trans
                    StEvo.localsOnly), hprov⟩
              · trivial
          · exact hL
          · trivial
      | coordPair a b =>
          have hA := ihE a s
          rcases h1 : evalE fenv ora fuel a s with ⟨s1, va⟩ | ⟨s1, ex⟩ | _ <;>
            rw [h1] at hA <;> simp only [evalE, h1]
          · have hB := ihE b s1
            rcases h2 : evalE fenv ora fuel b s1 with ⟨s2, vb⟩ | ⟨s2, ex⟩ | _ <;>
              rw [h2] at hB <;> simp only [h2]
            · have hch : StEvo s s2 True True := (hA : StEvo _ _ _ _).trans hB
              have hchF : StEvo s s2 False True := hch.mono (fun _ => trivial) (fun x => x)
              cases va <;> cases vb <;>
                first
                  | exact hch
                  | exact ⟨hchF, fun n code hc => Exc.noConfusion hc⟩
            · obtain ⟨hB1, hprov⟩ := hB
              exact ⟨((hA : StEvo _ _ _ _).mono (fun h => h.elim) (fun x => x)).trans hB1,
                hprov⟩
            · trivial
          · exact hA
          · trivial
      | splitlinesE e1 =>
          have hA := ihE e1 s
          rcases h1 : evalE fenv ora fuel e1 s with ⟨s1, v⟩ | ⟨s1, ex⟩ | _ <;>
            rw [h1] at hA <;> simp only [evalE, h1]
          · have hch : StEvo s s1 True True := hA
            have hchF : StEvo s s1 False True := hch.mono (fun _ => trivial) (fun x => x)
            cases v <;>
              first
                | exact hch
                | exact ⟨hchF, fun n code hc => Exc.noConfusion hc⟩
          · exact hA
          · trivial
      | stripE e1 =>
          have hA := ihE e1 s
          rcases h1 : evalE fenv ora fuel e1 s with ⟨s1, v⟩ | ⟨s1, ex⟩ | _ <;>
            rw [h1] at hA <;> simp only [evalE, h1]
          · have hch : StEvo s s1 True True := hA
            have hchF : StEvo s s1 False True := hch.mono (fun _ => trivial) (fun x => x)
            cases v <;>
              first
                | exact hch
                | exact ⟨hchF, fun n code hc => Exc.noConfusion hc⟩
          · exact hA
          · trivial
      | parseCoordsE e1 =>
          have hA := ihE e1 s
          rcases h1 : evalE fenv ora fuel e1 s with ⟨s1, v⟩ | ⟨s1, ex⟩ | _ <;>
            rw [h1] at hA <;> simp only [evalE, h1]
          · have hch : StEvo s s1 True True := hA
            have hchF : StEvo s s1 False True := hch.mono (fun _ => trivial) (fun x => x)
            cases v <;>
              first
                | exact ⟨hchF, fun n code hc => Exc.noConfusion hc⟩
                | skip
            case strs ls =>
              rcases h3 : parseLines ls with _ | cs <;> simp only [h3]
              · exact ⟨hchF, fun n code hc => Exc.noConfusion hc⟩
              · exact hch
          · exact hA
          · trivial
      | subscriptE e1 key =>
          have hA := ihE e1 s
          rcases h1 : evalE fenv ora fuel e1 s with ⟨s1, v⟩ | ⟨s1, ex⟩ | _ <;>
            rw [h1] at hA <;> simp only [evalE, h1]
          · have hch : StEvo s s1 True True := hA
            have hchF : StEvo s s1 False True := hch.mono (fun _ => trivial) (fun x => x)
            cases v <;>
              first
                | exact ⟨hchF, fun n code hc => Exc.noConfusion hc⟩
                | skip
            case json t =>
              show ResEvo ora s True True
                (if key = "records" then Res.ok s1 (PVal.rows t) else Res.exc s1 Exc.keyError)
              by_cases hk : key = "records"
              · rw [if_pos hk]
                exact hch
              · rw [if_neg hk]
                exact ⟨hchF, fun n code hc => Exc.noConfusion hc⟩
          · exact hA
          · trivial
      | dataFrameE e1 =>
          have hA := ihE e1 s
          rcases h1 : evalE fenv ora fuel e1 s with ⟨s1, v⟩ | ⟨s1, ex⟩ | _ <;>
            rw [h1] at hA <;> simp only [evalE, h1]
          · have hch : StEvo s s1 True True := hA
            have hchF : StEvo s s1 False True := hch.mono (fun _ => trivial) (fun x => x)
            cases v <;>
              first
                | exact hch
                | exact ⟨hchF, fun n code hc => Exc.noConfusion hc⟩
          · exact hA
          · trivial
      | locIdx e1 idx col =>
          have hA := ihE e1 s
          rcases h1 : evalE fenv ora fuel e1 s with ⟨s1, v⟩ | ⟨s1, ex⟩ | _ <;>
            rw [h1] at hA <;> simp only [evalE, h1]
          · have hch : StEvo s s1 True True := hA
            have hchF : StEvo s s1 False True := hch.mono (fun _ => trivial) (fun x => x)
            cases v <;>
              first
                | exact ⟨hchF, fun n code hc => Exc.noConfusion hc⟩
                | skip
            case rows t =>
              rcases h3 : (List.get? t idx).bind (fun row => row.lookup col) with _ | d <;>
                simp only [h3]
              · exact ⟨hchF, fun n code hc => Exc.noConfusion hc⟩
              · exact hch
          · exact hA
          · trivial
    · -- keyword argument lists
      intro args s
      cases args with
      | nil => exact StEvo.rfl
      | cons kv rest =>
          obtain ⟨k, e⟩ := kv
          have hA := ihE e s
          rcases h1 : evalE fenv ora fuel e s with ⟨s1, v⟩ | ⟨s1, ex⟩ | _ <;>
            rw [h1] at hA <;> simp only [evalArgs, h1]
          · have hR := ihA rest s1
            rcases h2 : evalArgs fenv ora fuel rest s1 with ⟨s2, vs⟩ | ⟨s2, ex⟩ | _ <;>
              rw [h2] at hR <;> simp only [h2]
            · exact (hA : StEvo _ _ _ _).trans hR
            · obtain ⟨hR1, hprov⟩ := hR
              exact ⟨((hA : StEvo _ _ _ _).mono (fun h => h.elim) (fun x => x)).trans hR1,
                hprov⟩
            · trivial
          · exact hA
          · trivial
    · -- positional argument lists
      intro es s
      cases es with
      | nil => exact StEvo.rfl
      | cons e rest =>
          have hA := ihE e s
          rcases h1 : evalE fenv ora fuel e s with ⟨s1, v⟩ | ⟨s1, ex⟩ | _ <;>
            rw [h1] at hA <;> simp only [evalList, h1]
          · have hR := ihL rest s1
            rcases h2 : evalList fenv ora fuel rest s1 with ⟨s2, vs⟩ | ⟨s2, ex⟩ | _ <;>
              rw [h2] at hR <;> simp only [h2]
            · exact (hA : StEvo _ _ _ _).trans hR
            · obtain ⟨hR1, hprov⟩ := hR
              exact ⟨((hA : StEvo _ _ _ _).mono (fun h => h.elim) (fun x => x)).trans hR1,
                hprov⟩
            · trivial
          · exact hA
          · trivial
    · -- statement lists
      intro prog s
      cases prog with
      | nil => exact StEvo.rfl
      | cons st rest =>
          cases st with
          | exprS e =>
              have hE := ihE e s
              rcases h1 : evalE fenv ora fuel e s with ⟨s1, v⟩ | ⟨s1, ex⟩ | _ <;>
                rw [h1] at hE <;> simp only [execS, h1]
              · have hR := ihS rest s1
                rcases h2 : execS fenv ora fuel rest s1 with ⟨s2, r⟩ | ⟨s2, ex⟩ | _ <;>
                  rw [h2] at hR
                · exact ((hE : StEvo _ _ _ _).mono (fun _ => trivial) (fun _ => trivial)).trans
                    ((hR : StEvo _ _ _ _).mono (fun h => h) (fun h => h))
                · obtain ⟨hR1, hprov⟩ := hR
                  exact ⟨((hE : StEvo _ _ _ _).mono (fun h => h.elim) (fun _ => trivial)).trans
                    (hR1.mono (fun x => x) (fun h => h)), hprov⟩
                · trivial
              · obtain ⟨hE1, hprov⟩ := hE
                exact ⟨hE1.mono (fun x => x) (fun _ => trivial), hprov⟩
              · trivial
          | assign x e =>
              have hE := ihE e s
              rcases h1 : evalE fenv ora fuel e s with ⟨s1, v⟩ | ⟨s1, ex⟩ | _ <;>
                rw [h1] at hE <;> simp only [execS, h1]
              · have hR := ihS rest { s1 with locals := (x, v) :: s1.locals }
                rcases h2 : execS fenv ora fuel rest { s1 with locals := (x, v) :: s1.locals }
                    with ⟨s2, r⟩ | ⟨s2, ex⟩ | _ <;> rw [h2] at hR
                · exact (((hE : StEvo _ _ _ _).mono (fun _ => trivial)
                    (fun _ => trivial)).trans StEvo.localsOnly).trans
                      ((hR : StEvo _ _ _ _).mono (fun h => h) (fun h => h))
                · obtain ⟨hR1, hprov⟩ := hR
                  exact ⟨(((hE : StEvo _ _ _ _).mono (fun h => h.elim)
                    (fun _ => trivial)).trans StEvo.localsOnly).trans
                      (hR1.mono (fun x => x) (fun h => h)), hprov⟩
                · trivial
              · obtain ⟨hE1, hprov⟩ := hE
                exact ⟨hE1.mono (fun x => x) (fun _ => trivial), hprov⟩
              · trivial
          | ifS c thn els =>
              have hntB : stsHasTry (Stmt.ifS c thn els :: rest) = false →
                  ∀ v : PVal, stsHasTry (if truthy v then thn else els) = false := by
                intro h v
                obtain ⟨h1', _⟩ := Bool.or_eq_false_iff.mp
                  (h : ((stsHasTry thn || stsHasTry els) || stsHasTry rest) = false)
                obtain ⟨ha, hb⟩ := Bool.or_eq_false_iff.mp h1'
                cases truthy v
                · exact hb
                · exact ha
              have hnpB : stsPathApp (Stmt.ifS c thn els :: rest) = false →
                  ∀ v : PVal, stsPathApp (if truthy v then thn else els) = false := by
                intro h v
                obtain ⟨h1', _⟩ := Bool.or_eq_false_iff.mp
                  (h : ((stsPathApp thn || stsPathApp els) || stsPathApp rest) = false)
                obtain ⟨ha, hb⟩ := Bool.or_eq_false_iff.mp h1'
                cases truthy v
                · exact hb
                · exact ha
              have hntR : stsHasTry (Stmt.ifS c thn els :: rest) = false →
                  stsHasTry rest = false := fun h =>
                (Bool.or_eq_false_iff.mp
                  (h : ((stsHasTry thn || stsHasTry els) || stsHasTry rest) = false)).2
              have hnpR : stsPathApp (Stmt.ifS c thn els :: rest) = false →
                  stsPathApp rest = false := fun h =>
                (Bool.or_eq_false_iff.mp
                  (h : ((stsPathApp thn || stsPathApp els) || stsPathApp rest) = false)).2
              have hE := ihE c s
              rcases h1 : evalE fenv ora fuel c s with ⟨s1, v⟩ | ⟨s1, ex⟩ | _ <;>
                rw [h1] at hE <;> simp only [execS, h1]
              · have hBr := ihS (if truthy v then thn else els) s1
                rcases h2 : execS fenv ora fuel (if truthy v then thn else els) s1
                    with ⟨s2, _ | rv⟩ | ⟨s2, ex⟩ | _ <;> rw [h2] at hBr <;> simp only [h2]
                · have hR := ihS rest s2
                  rcases h3 : execS fenv ora fuel rest s2 with ⟨s3, r3⟩ | ⟨s3, ex3⟩ | _ <;>
                    rw [h3] at hR
                  · exact (((hE : StEvo _ _ _ _).mono (fun _ => trivial)
                      (fun _ => trivial)).trans ((hBr : StEvo _ _ _ _).mono
                        (fun h => hntB h v) (fun h => hnpB h v))).trans
                          ((hR : StEvo _ _ _ _).mono hntR hnpR)
                  · obtain ⟨hR1, hprov⟩ := hR
                    exact ⟨(((hE : StEvo _ _ _ _).mono (fun h => h.elim)
                      (fun _ => trivial)).trans ((hBr : StEvo _ _ _ _).mono
                        (fun h => h.elim) (fun h => hnpB h v))).trans
                          (hR1.mono (fun x => x) hnpR), hprov⟩
                  · trivial
                · exact ((hE : StEvo _ _ _ _).mono (fun _ => trivial) (fun _ => trivial)).trans
                    ((hBr : StEvo _ _ _ _).mono (fun h => hntB h v) (fun h => hnpB h v))
                · obtain ⟨hBr1, hprov⟩ := hBr
                  exact ⟨((hE : StEvo _ _ _ _).mono (fun h => h.elim)
                    (fun _ => trivial)).trans (hBr1.mono (fun x => x) (fun h => hnpB h v)),
                      hprov⟩
                · trivial
              · obtain ⟨hE1, hprov⟩ := hE
                exact ⟨hE1.mono (fun x => x) (fun _ => trivial), hprov⟩
              · trivial
          | tryS body handler =>
              have hntF : stsHasTry (Stmt.tryS body handler :: rest) = false → False :=
                fun h => Bool.noConfusion (h : (true : Bool) = false)
              have hnpB : stsPathApp (Stmt.tryS body handler :: rest) = false →
                  stsPathApp body = false := fun h =>
                (Bool.or_eq_false_iff.mp (Bool.or_eq_false_iff.mp
                  (h : ((stsPathApp body || stsPathApp handler) ||
                    stsPathApp rest) = false)).1).1
              have hnpH : stsPathApp (Stmt.tryS body handler :: rest) = false →
                  stsPathApp handler = false := fun h =>
                (Bool.or_eq_false_iff.mp (Bool.or_eq_false_iff.mp
                  (h : ((stsPathApp body || stsPathApp handler) ||
                    stsPathApp rest) = false)).1).2
              have hnpR : stsPathApp (Stmt.tryS body handler :: rest) = false →
                  stsPathApp rest = false := fun h =>
                (Bool.or_eq_false_iff.mp
                  (h : ((stsPathApp body || stsPathApp handler) ||
                    stsPathApp rest) = false)).2
              have hB := ihS body s
              rcases h1 : execS fenv ora fuel body s with ⟨s1, _ | rv⟩ | ⟨s1, ex⟩ | _ <;>
                rw [h1] at hB <;> simp only [execS, h1]
              · have hR := ihS rest s1
                rcases h2 : execS fenv ora fuel rest s1 with ⟨s2, r2⟩ | ⟨s2, ex2⟩ | _ <;>
                  rw [h2] at hR
                · exact ((hB : StEvo _ _ _ _).mono (fun h => (hntF h).elim) hnpB).trans
                    ((hR : StEvo _ _ _ _).mono (fun h => (hntF h).elim) hnpR)
                · obtain ⟨hR1, hprov⟩ := hR
                  exact ⟨((hB : StEvo _ _ _ _).mono (fun h => h.elim) hnpB).trans
                    (hR1.mono (fun x => x) hnpR), hprov⟩
                · trivial
              · exact (hB : StEvo _ _ _ _).mono (fun h => (hntF h).elim) hnpB
              · obtain ⟨hB1, _⟩ := hB
                have hH := ihS handler s1
                rcases h2 : execS fenv ora fuel handler s1
                    with ⟨s2, _ | rv2⟩ | ⟨s2, ex2⟩ | _ <;> rw [h2] at hH <;> simp only [h2]
                · have hR := ihS rest s2
                  rcases h3 : execS fenv ora fuel rest s2 with ⟨s3, r3⟩ | ⟨s3, ex3⟩ | _ <;>
                    rw [h3] at hR
                  · exact ((hB1.mono (fun h => (hntF h).elim) hnpB).trans
                      ((hH : StEvo _ _ _ _).mono (fun h => (hntF h).elim) hnpH)).trans
                        ((hR : StEvo _ _ _ _).mono (fun h => (hntF h).elim) hnpR)
                  · obtain ⟨hR1, hprov⟩ := hR
                    exact ⟨((hB1.mono (fun x => x) hnpB).trans
                      ((hH : StEvo _ _ _ _).mono (fun h => h.elim) hnpH)).trans
                        (hR1.mono (fun x => x) hnpR), hprov⟩
                  · trivial
                · exact (hB1.mono (fun h => (hntF h).elim) hnpB).trans
                    ((hH : StEvo _ _ _ _).mono (fun h => (hntF h).elim) hnpH)
                · obtain ⟨hH1, hprov⟩ := hH
                  exact ⟨(hB1.mono (fun x => x) hnpB).trans (hH1.mono (fun x => x) hnpH),
                    hprov⟩
                · trivial
              · trivial
          | defF f ps body =>
              simp only [execS]
              have hR := ihS rest s
              rcases h1 : execS fenv ora fuel rest s with ⟨s1, r⟩ | ⟨s1, ex⟩ | _ <;>
                rw [h1] at hR
              · exact (hR : StEvo _ _ _ _).mono
                  (fun h => (Bool.or_eq_false_iff.mp
                    (h : (stsHasTry body || stsHasTry rest) = false)).2)
                  (fun h => (Bool.or_eq_false_iff.mp
                    (h : (stsPathApp body || stsPathApp rest) = false)).2)
              · obtain ⟨hR1, hprov⟩ := hR
                exact ⟨hR1.mono (fun x => x)
                  (fun h => (Bool.or_eq_false_iff.mp
                    (h : (stsPathApp body || stsPathApp rest) = false)).2), hprov⟩
              · trivial
          | ret e =>
              have hE := ihE e s
              rcases h1 : evalE fenv ora fuel e s with ⟨s1, v⟩ | ⟨s1, ex⟩ | _ <;>
                rw [h1] at hE <;> simp only [execS, h1]
              · exact (hE : StEvo _ _ _ _).mono (fun _ => trivial) (fun _ => trivial)
              · obtain ⟨hE1, hprov⟩ := hE
                exact ⟨hE1.mono (fun x => x) (fun _ => trivial), hprov⟩
              · trivial
          | sysPathAppend e =>
              have hnpF : stsPathApp (Stmt.sysPathAppend e :: rest) = false → False :=
                fun h => Bool.noConfusion (h : (true : Bool) = false)
              have hE := ihE e s
              rcases h1 : evalE fenv ora fuel e s with ⟨s1, v⟩ | ⟨s1, ex⟩ | _ <;>
                rw [h1] at hE <;> simp only [execS, h1]
              · cases v <;>
                  first
                    | exact ⟨(hE : StEvo _ _ _ _).mono (fun h => h.elim) (fun _ => trivial),
                        fun n code hc => Exc.noConfusion hc⟩
                    | skip
                case str p =>
                  show ResEvo ora s _ _
                    (execS fenv ora fuel rest { s1 with sysPath := s1.sysPath ++ [p] })
                  have hR := ihS rest { s1 with sysPath := s1.sysPath ++ [p] }
                  rcases h2 : execS fenv ora fuel rest { s1 with sysPath := s1.sysPath ++ [p] }
                      with ⟨s2, r⟩ | ⟨s2, ex⟩ | _ <;> rw [h2] at hR
                  · exact (((hE : StEvo _ _ _ _).mono (fun _ => trivial)
                      (fun _ => trivial)).trans (StEvo.pathStep.mono (fun x => x) hnpF)).trans
                        ((hR : StEvo _ _ _ _).mono (fun h => h) (fun h => (hnpF h).elim))
                  · obtain ⟨hR1, hprov⟩ := hR
                    exact ⟨(((hE : StEvo _ _ _ _).mono (fun h => h.elim)
                      (fun _ => trivial)).trans (StEvo.pathStep.mono (fun x => x) hnpF)).trans
                        (hR1.mono (fun x => x) (fun h => (hnpF h).elim)), hprov⟩
                  · trivial
              · obtain ⟨hE1, hprov⟩ := hE
                exact ⟨hE1.mono (fun x => x) (fun _ => trivial), hprov⟩
              · trivial
          | importS ng =>
              simp only [execS]
              by_cases hg : (ng && s.sysPath.isEmpty) = true
              · rw [if_pos hg]
                exact ⟨StEvo.rfl, fun n code hc => Exc.noConfusion hc⟩
              · rw [if_neg hg]
                have hR := ihS rest s
                rcases h1 : execS fenv ora fuel rest s with ⟨s1, r⟩ | ⟨s1, ex⟩ | _ <;>
                  rw [h1] at hR
                · exact (hR : StEvo _ _ _ _).mono (fun h => h) (fun h => h)
                · obtain ⟨hR1, hprov⟩ := hR
                  exact ⟨hR1.mono (fun x => x) (fun h => h), hprov⟩
                · trivial
          | spawnThread body =>
              have hntB : stsHasTry (Stmt.spawnThread body :: rest) = false →
                  stsHasTry body = false := fun h =>
                (Bool.or_eq_false_iff.mp
                  (h : (stsHasTry body || stsHasTry rest) = false)).1
              have hntR : stsHasTry (Stmt.spawnThread body :: rest) = false →
                  stsHasTry rest = false := fun h =>
                (Bool.or_eq_false_iff.mp
                  (h : (stsHasTry body || stsHasTry rest) = false)).2
              have hnpB : stsPathApp (Stmt.spawnThread body :: rest) = false →
                  stsPathApp body = false := fun h =>
                (Bool.or_eq_false_iff.mp
                  (h : (stsPathApp body || stsPathApp rest) = false)).1
              have hnpR : stsPathApp (Stmt.spawnThread body :: rest) = false →
                  stsPathApp rest = false := fun h =>
                (Bool.or_eq_false_iff.mp
                  (h : (stsPathApp body || stsPathApp rest) = false)).2
              have hB := ihS body s
              rcases h1 : execS fenv ora fuel body s with ⟨s1, r⟩ | ⟨s1, ex⟩ | _ <;>
                rw [h1] at hB <;> simp only [execS, h1]
              · have hR := ihS rest s1
                rcases h2 : execS fenv ora fuel rest s1 with ⟨s2, r2⟩ | ⟨s2, ex2⟩ | _ <;>
                  rw [h2] at hR
                · exact ((hB : StEvo _ _ _ _).mono hntB hnpB).trans
                    ((hR : StEvo _ _ _ _).mono hntR hnpR)
                · obtain ⟨hR1, hprov⟩ := hR
                  exact ⟨((hB : StEvo _ _ _ _).mono (fun h => h.elim) hnpB).trans
                    (hR1.mono (fun x => x) hnpR), hprov⟩
                · trivial
              · obtain ⟨hB1, hprov⟩ := hB
                exact ⟨hB1.mono (fun x => x) hnpB, hprov⟩
              · trivial

/-! ### Claim-facing helpers -/

/-- An argument value is passed opaquely: a string literal, a name obtained
unmodified from a listing call, or a function parameter passed verbatim. -/
def argOpaque (a : Arg) : Bool :=
  match a.val with
  | AVal.lit _ => true
  | AVal.fromListing => true
  | AVal.param _ _ => true
  | _ => false

/-- Every dataset-name argument (input or output role) of every invocation
is passed opaquely. -/
def datasetArgsOpaque (invs : List TInv) : Bool :=
  invs.all fun i => i.args.all fun a => decide (a.role = Role.other) || argOpaque a

mutual

/-- Number of `parseCoordsE` nodes (the one authored pure computation) in
an expression. -/
def peCount : Expr → Nat
  | .parseCoordsE e => 1 + peCount e
  | .extCall _ _ args => peCountA args
  | .userCall _ es => peCountL es
  | .coordPair a b => peCount a + peCount b
  | .splitlinesE e => peCount e
  | .stripE e => peCount e
  | .subscriptE e _ => peCount e
  | .dataFrameE e => peCount e
  | .locIdx e _ _ => peCount e
  | _ => 0

/-- `parseCoordsE` nodes in keyword arguments. -/
def peCountA : List (String × Expr) → Nat
  | [] => 0
  | (_, e) :: rest => peCount e + peCountA rest

/-- `parseCoordsE` nodes in positional arguments. -/
def peCountL : List Expr → Nat
  | [] => 0
  | e :: rest => peCount e + peCountL rest

end

mutual

/-- `parseCoordsE` nodes in a statement. -/
def peCountS : Stmt → Nat
  | .exprS e => peCount e
  | .assign _ e => peCount e
  | .ifS c thn els => peCount c + peCountSs thn + peCountSs els
  | .tryS body handler => peCountSs body + peCountSs handler
  | .defF _ _ body => peCountSs body
  | .ret e => peCount e
  | .sysPathAppend e => peCount e
  | .importS _ => 0
  | .spawnThread body => peCountSs body

/-- `parseCoordsE` nodes in a statement list. -/
def peCountSs : List Stmt → Nat
  | [] => 0
  | st :: rest => peCountS st + peCountSs rest

end

/-- `parseCoordsE` nodes in a cell list. -/
def peCountCells : List (List Stmt) → Nat
  | [] => 0
  | c :: rest => peCountSs c + peCountCells rest

/-- All `if` conditions of all authored cells of both notebooks, in
order. -/
def allIfConds : List Expr :=
  (allCells.map stsIfConds).flatten

/-- The bootstrap cell is an authored cell (of both notebooks; shown here
inside the checkpoint notebook's cells). -/
theorem bootstrapMemAll : bootstrapCell ∈ allCells := by
  show bootstrapCell ∈ checkpointCells ++ gettingStartedCells
  exact List.mem_append_left _ (List.mem_cons_of_mem _ (List.mem_cons_self _ _))

/-- The `grass` import cell is an authored cell. -/
theorem grassImportMemAll : grassImportCell ∈ allCells := by
  show grassImportCell ∈ checkpointCells ++ gettingStartedCells
  exact List.mem_append_left _
    (List.mem_cons_of_mem _ (List.mem_cons_of_mem _ (List.mem_cons_self _ _)))

/-- The overland-flow cell is an authored cell. -/
theorem simWaterMemAll : simWaterCell ∈ allCells := by
  show simWaterCell ∈ checkpointCells ++ gettingStartedCells
  apply List.mem_append_left
  repeat first | exact List.mem_cons_self _ _ | apply List.mem_cons_of_mem


/-- Under a pointwise-success hypothesis, `mapM` is the `some` of the
pointwise map. -/
theorem mapM_eq_some_map {α β : Type} (f : α → Option β) (g : α → β) :
    ∀ l : List α, (∀ a ∈ l, f a = some (g a)) → l.mapM f = some (l.map g) := by
  intro l
  induction l with
  | nil => intro _; rfl
  | cons a rest ihr =>
      intro h
      rw [List.mapM_cons, h a (List.mem_cons_self _ _),
        ihr (fun b hb => h b (List.mem_cons_of_mem _ hb))]
      rfl

/-- Under a pointwise `isSome` hypothesis, `mapM` is the `some` of the
`filterMap`. -/
theorem mapM_isSome_filterMap {α β : Type} (f : α → Option β) :
    ∀ l : List α, (∀ a ∈ l, (f a).isSome) → l.mapM f = some (l.filterMap f) := by
  intro l
  induction l with
  | nil => intro _; rfl
  | cons a rest ihr =>
      intro h
      have ha := h a (List.mem_cons_self _ _)
      rcases hfa : f a with _ | b
      · rw [hfa] at ha; exact absurd ha (by simp)
      · rw [List.mapM_cons, hfa,
          ihr (fun x hx => h x (List.mem_cons_of_mem _ hx)),
          List.filterMap_cons_some hfa]
        rfl

/-- Under a pointwise `isSome` hypothesis, `filterMap` keeps the length. -/
theorem filterMap_length_of_isSome {α β : Type} (f : α → Option β) :
    ∀ l : List α, (∀ a ∈ l, (f a).isSome) → (l.filterMap f).length = l.length := by
  intro l
  induction l with
  | nil => intro _; rfl
  | cons a rest ihr =>
      intro h
      have ha := h a (List.mem_cons_self _ _)
      rcases hfa : f a with _ | b
      · rw [hfa] at ha; exact absurd ha (by simp)
      · rw [List.filterMap_cons_some hfa, List.length_cons,
          ihr (fun x hx => h x (List.mem_cons_of_mem _ hx)), List.length_cons]

/-! ### The claims -/

/-- C1: the spec claims that in each notebook's cell sequence every
dataset name passed as an input argument was produced or imported by an
earlier invocation of that sequence.  The released notebook satisfies the
invariant; the checkpoint notebook violates it at ten places, consuming
the never-produced names `lagoon_points`, `relief`, `streams`,
`direction` and `basin_13` (the drainage raster is created as
`"drainage"` and the basin as `"basin_15"`, so `input="direction"` and
`zoom="basin_13"` contradict the notebook's own narrative cells). -/
theorem claim_C1_dataset_ordering :
    orderingOk gettingStartedInvs = true ∧
    orderingOk checkpointInvs = false ∧
    orderingViolations checkpointInvs =
      [("r.path", "lagoon_points"), ("d.shade", "relief"), ("d.rast", "relief"),
       ("v.extract", "streams"), ("d.rast", "relief"), ("d.vect", "streams"),
       ("r.water.outlet", "direction"), ("d.shade", "relief"), ("g.region", "basin_13"),
       ("v.out.ascii", "lagoon_points")] :=
  ⟨by decide, by decide, by decide⟩

/-- C2: no authored cell contains an exception handler; every uncaught
`fromCall` exception at the top level is exactly what the external call
raised (propagated unchanged); and a run that terminates normally made no
raising call at all — nothing was caught, retried, or recovered from. -/
theorem claim_C2_error_handling :
    (∀ c ∈ allCells, stsHasTry c = false) ∧
    (∀ c ∈ allCells, ∀ (ora : Oracle) (fuel : Nat) (s' : PState) (n : Nat) (code : Int),
      runProg ora fuel c = Res.exc s' (Exc.fromCall n code) →
      consult ora n = ExtOut.raise code) ∧
    (∀ c ∈ allCells, ∀ (ora : Oracle) (fuel : Nat) (s' : PState) (r : Option PVal),
      runProg ora fuel c = Res.ok s' r →
      ∀ rec ∈ s'.calls, ∃ v, rec.out = ExtOut.ret v) := by
  have hTry : ∀ c ∈ allCells, stsHasTry c = false := by decide
  have hDefTry : ∀ c ∈ allCells, ∀ d ∈ collectDefs c, stsHasTry d.2.2 = false := by decide
  have hDefPath : ∀ c ∈ allCells, ∀ d ∈ collectDefs c, stsPathApp d.2.2 = false := by decide
  refine ⟨hTry, ?_, ?_⟩
  · intro c hc ora fuel s' n code hrun
    have hsem := (semEvo (collectDefs c) ora (hDefTry c hc) (hDefPath c hc) fuel).2.2.2 c {}
    have hrun' : execS (collectDefs c) ora fuel c {} =
        Res.exc s' (Exc.fromCall n code) := hrun
    rw [hrun'] at hsem
    obtain ⟨_, hprov⟩ := hsem
    exact hprov n code rfl
  · intro c hc ora fuel s' r hrun
    have hsem := (semEvo (collectDefs c) ora (hDefTry c hc) (hDefPath c hc) fuel).2.2.2 c {}
    have hrun' : execS (collectDefs c) ora fuel c {} = Res.ok s' r := hrun
    rw [hrun'] at hsem
    obtain ⟨_, _, hco⟩ := hsem
    intro rec hm
    rcases hco (hTry c hc) rec hm with hin | hv
    · exact absurd hin (List.not_mem_nil _)
    · exact hv

/-- Witness for C2: the bootstrap cell run against an environment whose
single call raises error 7 ends with exactly that exception. -/
theorem claim_C2_witness :
    bootstrapCell ∈ allCells ∧
    runProg [ExtOut.raise 7] 50 bootstrapCell =
      Res.exc ⟨[], [], [⟨"subprocess.check_output", "grass",
        [("config", PVal.str "python_path")], ExtOut.raise 7⟩]⟩ (Exc.fromCall 0 7) ∧
    consult [ExtOut.raise 7] 0 = ExtOut.raise 7 := by
  refine ⟨bootstrapMemAll, rfl, ?_⟩
  exact claim_C2_error_handling.2.1 bootstrapCell bootstrapMemAll [ExtOut.raise 7] 50 _ 0 7 rfl

/-- C3 counterexample: the flow-tracing `myanalysis` does not perform the
same external invocation for every input — with empty `v.out.ascii` output
it performs no `r.drain` call, with nonempty output it does. -/
theorem claim_C3_counterexample :
    callTools (runScript [ExtOut.ret (PVal.str "")] 100 drainScript) = ["v.out.ascii"] ∧
    callTools (runScript [ExtOut.ret (PVal.str "630000.5,215000.25"), ExtOut.ret PVal.pyNone]
        100 drainScript) = ["v.out.ascii", "r.drain"] ∧
    (["v.out.ascii"] : List String) ≠ ["v.out.ascii", "r.drain"] :=
  ⟨by decide, by decide, by decide⟩

/-- C3 amended: every authored operation other than the flow-tracing
`myanalysis` performs one fixed invocation regardless of the environment's
responses; the flow-tracing `myanalysis` always performs `v.out.ascii` and
performs `r.drain` exactly when the parsed coordinate list is nonempty —
the `if coordinates:` guard is the only input-dependent branch authored in
the repository (the remaining `if` conditions are the two constant
`__main__` guards). -/
theorem claim_C3_single_invocation :
    (∀ (o : ExtOut) (rest : Oracle),
      callTools (runScript (o :: rest) 100 curvatureScript) = ["r.slope.aspect"]) ∧
    callTools (runScript [] 100 curvatureScript) = ["r.slope.aspect"] ∧
    callTools (runScript [ExtOut.ret (PVal.str "")] 100 drainScript) = ["v.out.ascii"] ∧
    callTools (runScript [ExtOut.ret (PVal.str "702726.5,126825.25"), ExtOut.ret PVal.pyNone]
        100 drainScript) = ["v.out.ascii", "r.drain"] ∧
    allIfConds = [Expr.isMainE, Expr.var "coordinates", Expr.isMainE] := by
  refine ⟨?_, by decide, by decide, by decide, rfl⟩
  intro o rest
  cases o with
  | ret v => rfl
  | raise code => rfl

/-- Witness for C3's amended statement at a concrete environment. -/
theorem claim_C3_witness :
    callTools (runScript [ExtOut.ret PVal.pyNone] 100 curvatureScript) =
      ["r.slope.aspect"] :=
  claim_C3_single_invocation.1 (ExtOut.ret PVal.pyNone) []

/-- C4 counterexample: `get_coordinates` computes its result by repository
code — given the engine's text, the coordinate list is produced by the
authored parsing with no further external call, and that behaviour is
specified independently of the engine by the pure `get_coordinates`. -/
theorem claim_C4_counterexample :
    evalE (collectDefs drainScript) [ExtOut.ret (PVal.str "1.5,2.5\n3.25,4.0")] 100
      (Expr.userCall "get_coordinates" [Expr.strLit "lagoon_points"]) scriptInit =
    Res.ok { locals := [], sysPath := ["grass-python-path"],
             calls := [⟨"gs.read_command", "v.out.ascii",
               [("input", PVal.str "lagoon_points"), ("separator", PVal.str "comma")],
               ExtOut.ret (PVal.str "1.5,2.5\n3.25,4.0")⟩] }
      (PVal.coords [[⟨15, 1⟩, ⟨25, 1⟩], [⟨325, 2⟩, ⟨40, 1⟩]]) := rfl

/-- C4 amended: the parsing inside `get_coordinates` is the single
authored computation whose result is produced by repository code rather
than by the engine; its behaviour is the pure function `get_coordinates`,
testable with no engine at all. -/
theorem claim_C4_only_parse :
    peCountCells allCells = 1 ∧
    get_coordinates "7.5,8.25" = some [[⟨75, 1⟩, ⟨825, 2⟩]] :=
  ⟨by decide, by decide⟩

/-- C5: on any text whose lines each have at least two comma-separated
fields with the first two parsing as decimal numbers, `get_coordinates`
returns one element per line, in line order, each element being the two
values parsed from the line's first two fields; on empty text it returns
the empty list. -/
theorem claim_C5_parse_contract (text : String)
    (h : ∀ line ∈ splitLinesPy text,
      2 ≤ (splitOnChar ',' line.data).length ∧
      ∀ f ∈ (splitOnChar ',' line.data).take 2, (parseDecimalChars f).isSome) :
    get_coordinates text =
      some ((splitLinesPy text).map fun line =>
        ((splitOnChar ',' line.data).take 2).filterMap parseDecimalChars) ∧
    (∀ line ∈ splitLinesPy text,
      (((splitOnChar ',' line.data).take 2).filterMap parseDecimalChars).length = 2) ∧
    get_coordinates "" = some [] := by
  refine ⟨?_, ?_, rfl⟩
  · exact mapM_eq_some_map parseLine
      (fun line => ((splitOnChar ',' line.data).take 2).filterMap parseDecimalChars)
      (splitLinesPy text)
      (fun line hl => mapM_isSome_filterMap parseDecimalChars _ ((h line hl).2))
  · intro line hl
    rw [filterMap_length_of_isSome parseDecimalChars _ ((h line hl).2), List.length_take]
    exact Nat.min_eq_left (h line hl).1

/-- Witness for C5 on a two-line text. -/
theorem claim_C5_witness :
    get_coordinates "1.5,2.5\n3.0,4.0" =
      some ((splitLinesPy "1.5,2.5\n3.0,4.0").map fun line =>
        ((splitOnChar ',' line.data).take 2).filterMap parseDecimalChars) :=
  (claim_C5_parse_contract "1.5,2.5\n3.0,4.0" (by decide)).1

/-- C6: every dataset-name argument of every external invocation of both
notebooks is passed opaquely — a string literal, a name obtained
unmodified from `gs.list_strings`, or a function parameter bound verbatim
to a literal — and no authored `if` condition examines a dataset name
(the conditions are the two `__main__` guards and the parsed coordinate
list). -/
theorem claim_C6_verbatim_names :
    datasetArgsOpaque checkpointInvs = true ∧
    datasetArgsOpaque gettingStartedInvs = true ∧
    allIfConds = [Expr.isMainE, Expr.var "coordinates", Expr.isMainE] :=
  ⟨by decide, by decide, rfl⟩

/-- C7 counterexample: the bootstrap cell mutates the interpreter-global
module search path, and the following `grass` import succeeds only because
of that mutation — without it the import raises. -/
theorem claim_C7_counterexample :
    runProg [] 50 grassImportCell = Res.exc {} Exc.importError ∧
    runProg [ExtOut.ret (PVal.str " /usr/grass/python\n")] 50
        (bootstrapCell ++ grassImportCell) =
      Res.ok { locals := [], sysPath := ["/usr/grass/python"],
               calls := [⟨"subprocess.check_output", "grass",
                 [("config", PVal.str "python_path")],
                 ExtOut.ret (PVal.str " /usr/grass/python\n")⟩] } none ∧
    ({} : PState).sysPath = [] :=
  ⟨rfl, rfl, rfl⟩

/-- C7 amended: the bootstrap `sys.path.append` cell is the single
authored mutation of interpreter-global state in each notebook (one cell
per notebook, the same code); every other cell leaves the module search
path unchanged whether it terminates normally or exceptionally; engine
session state (mask, region) is changed only through external tool
invocations. -/
theorem claim_C7_global_state :
    checkpointCells.countP (fun c => stsPathApp c) = 1 ∧
    gettingStartedCells.countP (fun c => stsPathApp c) = 1 ∧
    stsPathApp bootstrapCell = true ∧
    bootstrapCell ∈ allCells ∧
    (∀ c ∈ allCells, stsPathApp c = false →
      ∀ (ora : Oracle) (fuel : Nat) (s' : PState) (r : Option PVal),
        runProg ora fuel c = Res.ok s' r → s'.sysPath = []) ∧
    (∀ c ∈ allCells, stsPathApp c = false →
      ∀ (ora : Oracle) (fuel : Nat) (s' : PState) (ex : Exc),
        runProg ora fuel c = Res.exc s' ex → s'.sysPath = []) := by
  have hDefTry : ∀ c ∈ allCells, ∀ d ∈ collectDefs c, stsHasTry d.2.2 = false := by decide
  have hDefPath : ∀ c ∈ allCells, ∀ d ∈ collectDefs c, stsPathApp d.2.2 = false := by decide
  refine ⟨by decide, by decide, rfl, bootstrapMemAll, ?_, ?_⟩
  · intro c hc hnp ora fuel s' r hrun
    have hsem := (semEvo (collectDefs c) ora (hDefTry c hc) (hDefPath c hc) fuel).2.2.2 c {}
    have hrun' : execS (collectDefs c) ora fuel c {} = Res.ok s' r := hrun
    rw [hrun'] at hsem
    obtain ⟨_, hpath, _⟩ := hsem
    exact hpath hnp
  · intro c hc hnp ora fuel s' ex hrun
    have hsem := (semEvo (collectDefs c) ora (hDefTry c hc) (hDefPath c hc) fuel).2.2.2 c {}
    have hrun' : execS (collectDefs c) ora fuel c {} = Res.exc s' ex := hrun
    rw [hrun'] at hsem
    obtain ⟨⟨_, hpath, _⟩, _⟩ := hsem
    exact hpath hnp

/-- Witness for C7's amended statement: the `grass` import cell appends
nothing and its exceptional run leaves the path empty. -/
theorem claim_C7_witness :
    grassImportCell ∈ allCells ∧ stsPathApp grassImportCell = false ∧
    runProg [] 50 grassImportCell = Res.exc {} Exc.importError ∧
    ({} : PState).sysPath = [] := by
  refine ⟨grassImportMemAll, rfl, rfl, ?_⟩
  exact claim_C7_global_state.2.2.2.2.2 grassImportCell grassImportMemAll rfl [] 50 {}
    Exc.importError rfl

/-- C8: no authored cell creates a thread, a pool, or an asynchronous
task; the two simulation commands of the overland-flow cell are recorded
in source order, the first completing before the second begins; and every
successful run only appends calls, in order, to the log it started with. -/
theorem claim_C8_sequential :
    (∀ c ∈ allCells, stsSpawns c = false) ∧
    callTools (runProg [ExtOut.ret PVal.pyNone, ExtOut.ret PVal.pyNone] 100 simWaterCell) =
      ["r.slope.aspect", "r.sim.water"] ∧
    (∀ c ∈ allCells, ∀ (ora : Oracle) (fuel : Nat) (s s' : PState) (r : Option PVal),
      execS (collectDefs c) ora fuel c s = Res.ok s' r →
      s'.calls.take s.calls.length = s.calls) := by
  have hDefTry : ∀ c ∈ allCells, ∀ d ∈ collectDefs c, stsHasTry d.2.2 = false := by decide
  have hDefPath : ∀ c ∈ allCells, ∀ d ∈ collectDefs c, stsPathApp d.2.2 = false := by decide
  refine ⟨by decide, by decide, ?_⟩
  intro c hc ora fuel s s' r hrun
  have hsem := (semEvo (collectDefs c) ora (hDefTry c hc) (hDefPath c hc) fuel).2.2.2 c s
  rw [hrun] at hsem
  obtain ⟨⟨tail, htail⟩, _, _⟩ := hsem
  rw [htail]
  exact List.take_left _ _

/-- Witness for C8 on the bootstrap cell from the empty log. -/
theorem claim_C8_witness :
    bootstrapCell ∈ allCells ∧
    ([(⟨"subprocess.check_output", "grass", [("config", PVal.str "python_path")],
        ExtOut.ret (PVal.str "/g")⟩ : CallRec)].take 0 = ([] : List CallRec)) := by
  refine ⟨bootstrapMemAll, ?_⟩
  exact claim_C8_sequential.2.2 bootstrapCell bootstrapMemAll [ExtOut.ret (PVal.str "/g")]
    50 {} ⟨[], ["/g"], [⟨"subprocess.check_output", "grass",
      [("config", PVal.str "python_path")], ExtOut.ret (PVal.str "/g")⟩]⟩ none rfl

/-- C9: when `v.out.ascii` yields empty output, `get_coordinates` returns
the empty list, the guard skips the `r.drain` branch, and the script
terminates normally having performed only the `v.out.ascii` call —
whatever the environment would have answered to further calls. -/
theorem claim_C9_empty_points (rest : Oracle) :
    get_coordinates "" = some [] ∧
    resOk (runScript (ExtOut.ret (PVal.str "") :: rest) 100 drainScript) = true ∧
    callTools (runScript (ExtOut.ret (PVal.str "") :: rest) 100 drainScript) =
      ["v.out.ascii"] :=
  ⟨rfl, rfl, rfl⟩

/-- Witness for C9 at the one-answer environment. -/
theorem claim_C9_witness :
    get_coordinates "" = some [] ∧
    resOk (runScript [ExtOut.ret (PVal.str "")] 100 drainScript) = true ∧
    callTools (runScript [ExtOut.ret (PVal.str "")] 100 drainScript) = ["v.out.ascii"] :=
  claim_C9_empty_points []

/-- C10: in the checkpoint notebook's invocation sequence the mask is set
by invocation 39 (`r.mask raster="basin_15"`), the overland-flow
simulation (invocation 41) runs inside the masked interval, the mask is
removed by invocation 46 (`r.mask -r`) — the only other `r.mask` call —
and an invocation runs with the mask active exactly when its index lies
in the interval after the set and up to the removal. -/
theorem claim_C10_mask_interval :
    checkpointInvs.get? 39 =
      some ⟨"r.mask", [⟨"raster", AVal.lit "basin_15", Role.inData⟩], ""⟩ ∧
    checkpointInvs.get? 46 = some ⟨"r.mask", [], "r"⟩ ∧
    (checkpointInvs.get? 41).map TInv.tool = some "r.sim.water" ∧
    checkpointInvs.countP (fun i => i.tool == "r.mask") = 2 ∧
    (∀ i : Fin checkpointInvs.length,
      (maskStates checkpointInvs).getD i.val false = true ↔ 39 < i.val ∧ i.val ≤ 46) :=
  ⟨by decide, by decide, by decide, by decide, by decide⟩

/-- Witness for C10 at the overland-flow simulation's index. -/
theorem claim_C10_witness :
    ((maskStates checkpointInvs).getD 41 false = true ↔ 39 < 41 ∧ 41 ≤ 46) :=
  claim_C10_mask_interval.2.2.2.2 ⟨41, by decide⟩
